import Mathlib

/-!
# The hp-adaptivity control loop of the Hermes2D drivers

A shallow embedding of the adaptivity loop (`do { ... } while (done == false);`) of

* `hermes2d/examples/miscellaneous/adapt-quad-2/main.cpp` (single field), and
* `hermes2d/examples/linear-elasticity/crack/main.cpp` (two displacement fields).

The library calls made by the loop (reference-space construction, the matrix solver, the
projection, `Adapt::calc_err_est`, `Adapt::adapt`, `TimePeriod::accumulated`) are external
collaborators: they are the fields of `Env`, indexed by the number of the loop iteration in
which they are called and by the working space they are called on. A `double` is a `Dbl`: a
finite value, taken exactly, or NaN, on which every comparison is false.
-/

namespace Hermes

/-- A C++ `double` as the loop uses it: a finite value, taken exactly (rounding and the
infinities are left out), or NaN. -/
inductive Dbl
  | fin (q : ℚ)
  | nan
  deriving DecidableEq, Repr

/-- The product of two doubles: NaN as soon as one factor is NaN. -/
def Dbl.mul (a b : Dbl) : Dbl :=
  match a with
  | .fin x =>
    match b with
    | .fin y => .fin (x * y)
    | .nan => .nan
  | .nan => .nan

/-- The comparison `a < b` of two doubles: false as soon as one side is NaN. -/
def Dbl.lt (a b : Dbl) : Prop :=
  match a with
  | .fin x =>
    match b with
    | .fin y => x < y
    | .nan => False
  | .nan => False

/-- The comparison `a <= b` of two doubles: false as soon as one side is NaN. -/
def Dbl.le (a b : Dbl) : Prop :=
  match a with
  | .fin x =>
    match b with
    | .fin y => x ≤ y
    | .nan => False
  | .nan => False

instance Dbl.instMul : Mul Dbl := ⟨Dbl.mul⟩

instance Dbl.instLT : LT Dbl := ⟨Dbl.lt⟩

instance Dbl.instLE : LE Dbl := ⟨Dbl.le⟩

instance Dbl.decLt (a b : Dbl) : Decidable (a < b) :=
  match a, b with
  | .fin x, .fin y => inferInstanceAs (Decidable (x < y))
  | .fin _, .nan => isFalse (fun h => h)
  | .nan, _ => isFalse (fun h => h)

instance Dbl.decLe (a b : Dbl) : Decidable (a ≤ b) :=
  match a, b with
  | .fin x, .fin y => inferInstanceAs (Decidable (x ≤ y))
  | .fin _, .nan => isFalse (fun h => h)
  | .nan, _ => isFalse (fun h => h)

/-- The two drivers. -/
inductive Driver
  | adaptQuad2
  | crack
  deriving DecidableEq, Repr

/-- Number of field components: `space` in adapt-quad-2, `u1_space, u2_space` in crack. -/
def Driver.numFields : Driver → Nat
  | .adaptQuad2 => 1
  | .crack => 2

/-- The tunable constants at the head of each `main.cpp` that the loop reads. -/
structure Config where
  THRESHOLD : Dbl
  STRATEGY : Nat
  MESH_REGULARITY : Int
  ERR_STOP : Dbl
  NDOF_STOP : Int
  VTK_VISUALIZATION : Bool
  deriving DecidableEq, Repr

/-- Constants of `adapt-quad-2/main.cpp`, lines 12-41. -/
def adaptQuad2Config : Config where
  THRESHOLD := .fin (2 / 10)
  STRATEGY := 0
  MESH_REGULARITY := -1
  ERR_STOP := .fin 1
  NDOF_STOP := 60000
  VTK_VISUALIZATION := false

/-- The flag `MULTI` of `crack/main.cpp`, line 27. -/
def MULTI : Bool := true

/-- The constant `THRESHOLD_MULTI` of `crack/main.cpp`, line 31. -/
def THRESHOLD_MULTI : Dbl := .fin (35 / 100)

/-- The constant `THRESHOLD_SINGLE` of `crack/main.cpp`, line 32. -/
def THRESHOLD_SINGLE : Dbl := .fin (7 / 10)

/-- Constants of `crack/main.cpp`, lines 24-57; the threshold handed to `adapt` is
`MULTI ? THRESHOLD_MULTI : THRESHOLD_SINGLE` (line 219). The driver has no VTK output. -/
def crackConfig : Config where
  THRESHOLD := if MULTI then THRESHOLD_MULTI else THRESHOLD_SINGLE
  STRATEGY := 0
  MESH_REGULARITY := -1
  ERR_STOP := .fin (1 / 10)
  NDOF_STOP := 60000
  VTK_VISUALIZATION := false

/-- The configuration each driver is compiled with. -/
def Driver.config : Driver → Config
  | .adaptQuad2 => adaptQuad2Config
  | .crack => crackConfig

/-- The external collaborators of the loop, over an abstract type `σ` of working
discretizations. The `Nat` argument is the number (from 1) of the loop iteration making the
call. `adapt` receives `THRESHOLD, STRATEGY, MESH_REGULARITY` and returns the flag it reports
together with the refined working discretization. -/
structure Env (σ : Type) where
  get_num_dofs : σ → Int
  solve : Nat → σ → Bool
  calc_err_est : Nat → σ → Dbl
  adapt : Nat → σ → Dbl → Nat → Int → Bool × σ
  accumulated : Nat → Dbl

/-- What an iteration does, in program order. -/
inductive Event
  | stepMessage (as : Nat)
  | buildReference
  | assemble
  | solve (ok : Bool)
  | fatal
  | project
  | vtkOutput (as : Nat)
  | estimate
  | logRow
  | toleranceTest (stop : Bool)
  | adapt (done : Bool)
  | ceilingTest (stop : Bool)
  | cleanup
  deriving DecidableEq, Repr

/-- The variables of `main` that the loop reads and writes, the two convergence graphs, the
reference objects that are allocated and not yet deleted (each named by the iteration that
built it and its field component), and two ghost fields: `iter`, the number of loop bodies
started, and `trace`, the events so far, each tagged with its iteration. `ref_sln` and `sln`
hold the iteration whose reference space the current solutions come from. -/
structure State (σ : Type) where
  space : σ
  as : Nat
  done : Bool
  ref_sln : Option Nat
  sln : Option Nat
  graph_dof : List (Int × Dbl)
  graph_cpu : List (Dbl × Dbl)
  liveRefSpaces : List (Nat × Nat)
  liveRefMeshes : List (Nat × Nat)
  iter : Nat
  trace : List (Nat × Event)

/-- State on entry to the loop: `int as = 1; bool done = false;`, empty graphs. -/
def State.init {σ : Type} (space : σ) : State σ where
  space := space
  as := 1
  done := false
  ref_sln := none
  sln := none
  graph_dof := []
  graph_cpu := []
  liveRefSpaces := []
  liveRefMeshes := []
  iter := 0
  trace := []

/-- The reference objects built in iteration `k`: one per field component. -/
def refObjects (d : Driver) (k : Nat) : List (Nat × Nat) :=
  (List.range d.numFields).map (fun c => (k, c))

/-- Start of the loop body up to the assembly: the step message, `construct_refined_space(s)`
and `dp->assemble`. -/
def beginIteration {σ : Type} (d : Driver) (s : State σ) : State σ :=
  let k := s.iter + 1
  { s with
    iter := k
    liveRefSpaces := s.liveRefSpaces ++ refObjects d k
    liveRefMeshes := s.liveRefMeshes ++ refObjects d k
    trace := s.trace ++ [(k, .stepMessage s.as), (k, .buildReference), (k, .assemble)] }

/-- Modelled from the spec: the macro `error` of the branch
`else error ("Matrix solver failed.\n");` is declared outside the given sources; by the spec a
solver failure is fatal and aborts the whole run, so nothing after it is executed. -/
def solverFailed {σ : Type} (s : State σ) : State σ :=
  { s with trace := s.trace ++ [(s.iter, .solve false), (s.iter, .fatal)] }

/-- A successful solve followed by `vector_to_solution(s)` and `project_global`; adapt-quad-2
then has its (optional) VTK output. -/
def solveAndProject {σ : Type} (d : Driver) (cfg : Config) (s : State σ) : State σ :=
  { s with
    ref_sln := some s.iter
    sln := some s.iter
    trace := s.trace ++ [(s.iter, .solve true), (s.iter, .project)] ++
      (if d = .adaptQuad2 ∧ cfg.VTK_VISUALIZATION = true then [(s.iter, .vtkOutput s.as)]
       else []) }

/-- The value `err_est_rel` (`err_est_rel_total` in crack): `calc_err_est(...) * Dbl.fin 100`. -/
def errEstRel {σ : Type} (env : Env σ) (s : State σ) : Dbl :=
  env.calc_err_est s.iter s.space * Dbl.fin 100

/-- The estimate and the two `add_values` calls. -/
def estimateAndLog {σ : Type} (env : Env σ) (s : State σ) : State σ :=
  { s with
    graph_dof := s.graph_dof ++ [(env.get_num_dofs s.space, errEstRel env s)]
    graph_cpu := s.graph_cpu ++ [(env.accumulated s.iter, errEstRel env s)]
    trace := s.trace ++ [(s.iter, .estimate), (s.iter, .logRow)] }

/-- The statement `if (err_est_rel < ERR_STOP) done = true; else { done = adapt(...); ... }`.
In adapt-quad-2 the else branch ends with `if (done == false) as++;`. -/
def toleranceOrAdapt {σ : Type} (d : Driver) (cfg : Config) (env : Env σ) (s : State σ) :
    State σ :=
  if errEstRel env s < cfg.ERR_STOP then
    { s with done := true, trace := s.trace ++ [(s.iter, .toleranceTest true)] }
  else
    let r := env.adapt s.iter s.space cfg.THRESHOLD cfg.STRATEGY cfg.MESH_REGULARITY
    { s with
      space := r.2
      done := r.1
      as := if d = .adaptQuad2 ∧ r.1 = false then s.as + 1 else s.as
      trace := s.trace ++ [(s.iter, .toleranceTest false), (s.iter, .adapt r.1)] }

/-- The statement `if (Space::get_num_dofs(...) >= NDOF_STOP) done = true;`. -/
def ceilingTest {σ : Type} (cfg : Config) (env : Env σ) (s : State σ) : State σ :=
  if env.get_num_dofs s.space ≥ cfg.NDOF_STOP then
    { s with done := true, trace := s.trace ++ [(s.iter, .ceilingTest true)] }
  else
    { s with trace := s.trace ++ [(s.iter, .ceilingTest false)] }

/-- The clean-up at the end of the body. Both drivers delete the reference meshes only when
`done == false`. adapt-quad-2 then does `delete ref_space;`. crack does `delete ref_spaces;`
on the `Hermes::vector<Space *>*`, which frees the vector and not the spaces it points to.
crack ends with `as++;`. -/
def cleanUp {σ : Type} (d : Driver) (s : State σ) : State σ :=
  { s with
    liveRefMeshes :=
      if s.done = false then s.liveRefMeshes.filter (fun o => decide (o.1 ≠ s.iter))
      else s.liveRefMeshes
    liveRefSpaces :=
      if d = .adaptQuad2 then s.liveRefSpaces.filter (fun o => decide (o.1 ≠ s.iter))
      else s.liveRefSpaces
    as := if d = .crack then s.as + 1 else s.as
    trace := s.trace ++ [(s.iter, .cleanup)] }

/-- The part of the loop body after a successful `solver->solve()`, in program order. -/
def afterSolve {σ : Type} (d : Driver) (cfg : Config) (env : Env σ) (s : State σ) : State σ :=
  cleanUp d (ceilingTest cfg env (toleranceOrAdapt d cfg env
    (estimateAndLog env (solveAndProject d cfg s))))

/-- One execution of the loop body: `.error` when the solver fails (the program exits), and
otherwise the state at the `while (done == false)` test. -/
def body {σ : Type} (d : Driver) (cfg : Config) (env : Env σ) (s : State σ) :
    Except (State σ) (State σ) :=
  let s1 := beginIteration d s
  if env.solve s1.iter s1.space = true then
    .ok (afterSolve d cfg env s1)
  else
    .error (solverFailed s1)

/-- How a run ends: the loop left with `done`, the program aborted by the solver failure, or
the loop still going when the iteration budget is used up. -/
inductive Outcome (σ : Type)
  | finished (s : State σ)
  | aborted (s : State σ)
  | running (s : State σ)

/-- The state an outcome carries. -/
def Outcome.state {σ : Type} : Outcome σ → State σ
  | .finished s => s
  | .aborted s => s
  | .running s => s

/-- The number of iterations an outcome has completed: the aborted one does not count. -/
def Outcome.completed {σ : Type} : Outcome σ → Nat
  | .finished s => s.iter
  | .aborted s => s.iter - 1
  | .running s => s.iter

/-- The `do { body } while (done == false);` loop, for at most `fuel` iterations. -/
def loop {σ : Type} (d : Driver) (cfg : Config) (env : Env σ) : Nat → State σ → Outcome σ
  | 0, s => .running s
  | fuel + 1, s =>
    match body d cfg env s with
    | .error s' => .aborted s'
    | .ok s' => if s'.done = true then .finished s' else loop d cfg env fuel s'

/-- The adaptivity loop of `main`, from its initial state. -/
def run {σ : Type} (d : Driver) (cfg : Config) (env : Env σ) (space : σ) (fuel : Nat) :
    Outcome σ :=
  loop d cfg env fuel (State.init space)

/-- The working discretization after `i` refinement steps: iteration `i + 1` of a run that
has not stopped before works on `spaceAt cfg env space i`. -/
def spaceAt {σ : Type} (cfg : Config) (env : Env σ) (space : σ) : Nat → σ
  | 0 => space
  | i + 1 =>
    (env.adapt (i + 1) (spaceAt cfg env space i) cfg.THRESHOLD cfg.STRATEGY
      cfg.MESH_REGULARITY).2

/-- The global error estimate in percent computed in iteration `i + 1`. -/
def estimateAt {σ : Type} (cfg : Config) (env : Env σ) (space : σ) (i : Nat) : Dbl :=
  env.calc_err_est (i + 1) (spaceAt cfg env space i) * Dbl.fin 100

/-- The flag `adapt` reports in iteration `i + 1`. -/
def adaptDoneAt {σ : Type} (cfg : Config) (env : Env σ) (space : σ) (i : Nat) : Bool :=
  (env.adapt (i + 1) (spaceAt cfg env space i) cfg.THRESHOLD cfg.STRATEGY
    cfg.MESH_REGULARITY).1

/-- The rows the DOF graph is expected to hold after `n` completed iterations. -/
def dofRows {σ : Type} (cfg : Config) (env : Env σ) (space : σ) (n : Nat) : List (Int × Dbl) :=
  (List.range n).map
    (fun i => (env.get_num_dofs (spaceAt cfg env space i), estimateAt cfg env space i))

/-- The rows the CPU-time graph is expected to hold after `n` completed iterations. -/
def cpuRows {σ : Type} (cfg : Config) (env : Env σ) (space : σ) (n : Nat) : List (Dbl × Dbl) :=
  (List.range n).map (fun i => (env.accumulated (i + 1), estimateAt cfg env space i))

/-! ## Marking strategy 0

`Adapt::adapt`, which holds the marking strategies, is not among the given sources; the
drivers only pass `THRESHOLD` and `STRATEGY` to it. The definitions of this section follow
the words of the specification. -/

/-- Modelled from the spec: the order "descending error contribution" on the elements of the
marking step of `Adapt::adapt`, each element given as its number and its error. -/
def errGe (a b : Nat × ℚ) : Prop := b.2 ≤ a.2

instance errGe_decidable : DecidableRel errGe := fun a b => inferInstanceAs (Decidable (b.2 ≤ a.2))

instance errGe_total : IsTotal (Nat × ℚ) errGe := ⟨fun a b => le_total b.2 a.2⟩

instance errGe_trans : IsTrans (Nat × ℚ) errGe := ⟨fun _ _ _ hab hbc => le_trans hbc hab⟩

/-- Modelled from the spec: "sort elements by descending error contribution", the first step
of strategy 0 in `Adapt::adapt`; element `i` is the `i`-th entry of `errs`. -/
def sortDescending (errs : List ℚ) : List (Nat × ℚ) :=
  errs.enum.insertionSort errGe

/-- Modelled from the spec: the test "cumulative error exceeds sqrt(threshold) x total
error" of strategy 0 in `Adapt::adapt`. For the non-negative values it is applied to,
`cum > sqrt thr * total` is the comparison of the squares written here. -/
def exceedsFraction (thr total cum : ℚ) : Bool :=
  decide (thr * (total * total) < cum * cum)

/-- Modelled from the spec: the length of "the minimal prefix whose cumulative error exceeds
sqrt(threshold) x total error" in strategy 0 of `Adapt::adapt`, counted from a position
where the errors passed so far sum to `cum`; the whole list when no such position exists. -/
def cutLength (thr total : ℚ) : ℚ → List (Nat × ℚ) → Nat
  | _, [] => 0
  | cum, e :: rest =>
    if exceedsFraction thr total cum = true then 0
    else cutLength thr total (cum + e.2) rest + 1

/-- Modelled from the spec: marking strategy 0 of `Adapt::adapt`: "sort elements by descending
error contribution and flag the minimal prefix whose cumulative error exceeds sqrt(threshold)
x total error, extending the prefix to include all elements tied with the last one
selected". The result lists the numbers of the flagged elements. -/
def markStrategy0 (thr : ℚ) (errs : List ℚ) : List Nat :=
  let sorted := sortDescending errs
  let p := cutLength thr errs.sum 0 sorted
  match (sorted.take p).getLast? with
  | none => []
  | some last =>
    (sorted.take p ++ (sorted.drop p).takeWhile (fun e => decide (e.2 = last.2))).map Prod.fst

/-- The step messages of a trace: for each `info("---- Adaptivity step %d:", as)`, the
iteration that printed it and the number it shows. -/
def stepMessages (t : List (Nat × Event)) : List (Nat × Nat) :=
  t.filterMap (fun e =>
    match e.2 with
    | .stepMessage a => some (e.1, a)
    | _ => none)

/-- The VTK outputs of a trace: for each `sln-%d.vtk` / `ord-%d.vtk` pair, the iteration that
wrote it and the number in the file names. -/
def vtkOutputs (t : List (Nat × Event)) : List (Nat × Nat) :=
  t.filterMap (fun e =>
    match e.2 with
    | .vtkOutput a => some (e.1, a)
    | _ => none)

/-! ## Concrete collaborators used to evaluate the loop -/

/-- A scripted collaborator whose working space is its DOF count: the solver fails exactly in
iteration `failAt` (never when `failAt = 0`), the estimator returns `errs[i - 1] / 100` in
iteration `i`, so that `errs` lists the percentages, `adapt` reports `stall` and adds `growth`
DOFs, and the clock shows the iteration number. -/
def scriptedEnv (errs : List ℚ) (failAt : Nat) (stall : Bool) (growth : Int) : Env Int where
  get_num_dofs := fun s => s
  solve := fun i _ => decide (i ≠ failAt)
  calc_err_est := fun i _ => .fin (errs.getD (i - 1) 0 / 100)
  adapt := fun _ s _ _ _ => (stall, s + growth)
  accumulated := fun i => .fin i

/-- A collaborator whose estimator returns NaN in every iteration (the quotient `0 / 0` of a
zero error by a zero reference norm); otherwise as `scriptedEnv` with no failure, an `adapt`
that reports `false` and 50 more DOFs per refinement. -/
def nanEnv : Env Int where
  get_num_dofs := fun s => s
  solve := fun _ _ => true
  calc_err_est := fun _ _ => .nan
  adapt := fun _ s _ _ _ => (false, s + 50)
  accumulated := fun i => .fin i

/-! ## Comparisons and products of doubles -/

@[simp] theorem Dbl.fin_lt_fin (x y : ℚ) : Dbl.fin x < Dbl.fin y ↔ x < y := Iff.rfl

@[simp] theorem Dbl.fin_le_fin (x y : ℚ) : Dbl.fin x ≤ Dbl.fin y ↔ x ≤ y := Iff.rfl

@[simp] theorem Dbl.not_nan_lt (b : Dbl) : ¬ Dbl.nan < b := fun h => h

@[simp] theorem Dbl.not_lt_nan (a : Dbl) : ¬ a < Dbl.nan := by
  cases a <;> exact fun h => h

@[simp] theorem Dbl.not_nan_le (b : Dbl) : ¬ Dbl.nan ≤ b := fun h => h

@[simp] theorem Dbl.not_le_nan (a : Dbl) : ¬ a ≤ Dbl.nan := by
  cases a <;> exact fun h => h

@[simp] theorem Dbl.fin_mul_fin (x y : ℚ) : Dbl.fin x * Dbl.fin y = Dbl.fin (x * y) := rfl

@[simp] theorem Dbl.nan_mul (b : Dbl) : Dbl.nan * b = Dbl.nan := rfl

@[simp] theorem Dbl.mul_nan (a : Dbl) : a * Dbl.nan = Dbl.nan := by
  cases a <;> rfl

/-- The comparison `a <= b` excludes `b < a`, also for doubles. -/
theorem Dbl.not_lt_of_le {a b : Dbl} (h : a ≤ b) : ¬ b < a := by
  cases a <;> cases b
  · exact not_lt.2 ((Dbl.fin_le_fin _ _).1 h)
  · exact absurd h (Dbl.not_le_nan _)
  · exact absurd h (Dbl.not_nan_le _)
  · exact absurd h (Dbl.not_nan_le _)

/-- For two doubles that are not NaN, `a < b` fails exactly when `b <= a`. -/
theorem Dbl.not_lt_iff_le {a b : Dbl} (ha : a ≠ Dbl.nan) (hb : b ≠ Dbl.nan) :
    ¬ a < b ↔ b ≤ a := by
  cases a <;> cases b
  · exact (not_lt : ¬ _ < _ ↔ (_ : ℚ) ≤ _)
  · exact absurd rfl hb
  · exact absurd rfl ha
  · exact absurd rfl ha

/-- No double is below itself. -/
theorem Dbl.not_lt_self (a : Dbl) : ¬ a < a := by
  cases a
  · exact fun h => (lt_self_iff_false _).1 ((Dbl.fin_lt_fin _ _).1 h)
  · exact Dbl.not_nan_lt _

/-! ## Field-by-field description of the phases of the loop body -/

variable {σ : Type}

section fields

variable (d : Driver) (cfg : Config) (env : Env σ) (s : State σ)

@[simp] theorem beginIteration_space : (beginIteration d s).space = s.space := rfl
@[simp] theorem beginIteration_as : (beginIteration d s).as = s.as := rfl
@[simp] theorem beginIteration_done : (beginIteration d s).done = s.done := rfl
@[simp] theorem beginIteration_iter : (beginIteration d s).iter = s.iter + 1 := rfl
@[simp] theorem beginIteration_graph_dof : (beginIteration d s).graph_dof = s.graph_dof := rfl
@[simp] theorem beginIteration_graph_cpu : (beginIteration d s).graph_cpu = s.graph_cpu := rfl
@[simp] theorem beginIteration_trace : (beginIteration d s).trace =
    s.trace ++ [(s.iter + 1, .stepMessage s.as), (s.iter + 1, .buildReference),
      (s.iter + 1, .assemble)] := rfl
@[simp] theorem beginIteration_liveRefMeshes : (beginIteration d s).liveRefMeshes =
    s.liveRefMeshes ++ refObjects d (s.iter + 1) := rfl
@[simp] theorem beginIteration_liveRefSpaces : (beginIteration d s).liveRefSpaces =
    s.liveRefSpaces ++ refObjects d (s.iter + 1) := rfl

@[simp] theorem solverFailed_space : (solverFailed s).space = s.space := rfl
@[simp] theorem solverFailed_iter : (solverFailed s).iter = s.iter := rfl
@[simp] theorem solverFailed_graph_dof : (solverFailed s).graph_dof = s.graph_dof := rfl
@[simp] theorem solverFailed_graph_cpu : (solverFailed s).graph_cpu = s.graph_cpu := rfl
@[simp] theorem solverFailed_trace : (solverFailed s).trace =
    s.trace ++ [(s.iter, .solve false), (s.iter, .fatal)] := rfl

@[simp] theorem solveAndProject_space : (solveAndProject d cfg s).space = s.space := rfl
@[simp] theorem solveAndProject_as : (solveAndProject d cfg s).as = s.as := rfl
@[simp] theorem solveAndProject_done : (solveAndProject d cfg s).done = s.done := rfl
@[simp] theorem solveAndProject_iter : (solveAndProject d cfg s).iter = s.iter := rfl
@[simp] theorem solveAndProject_ref_sln : (solveAndProject d cfg s).ref_sln = some s.iter := rfl
@[simp] theorem solveAndProject_graph_dof :
    (solveAndProject d cfg s).graph_dof = s.graph_dof := rfl
@[simp] theorem solveAndProject_graph_cpu :
    (solveAndProject d cfg s).graph_cpu = s.graph_cpu := rfl
@[simp] theorem solveAndProject_trace : (solveAndProject d cfg s).trace =
    s.trace ++ [(s.iter, .solve true), (s.iter, .project)] ++
      (if d = .adaptQuad2 ∧ cfg.VTK_VISUALIZATION = true then [(s.iter, .vtkOutput s.as)]
       else []) := rfl
@[simp] theorem solveAndProject_liveRefMeshes :
    (solveAndProject d cfg s).liveRefMeshes = s.liveRefMeshes := rfl
@[simp] theorem solveAndProject_liveRefSpaces :
    (solveAndProject d cfg s).liveRefSpaces = s.liveRefSpaces := rfl

@[simp] theorem estimateAndLog_space : (estimateAndLog env s).space = s.space := rfl
@[simp] theorem estimateAndLog_as : (estimateAndLog env s).as = s.as := rfl
@[simp] theorem estimateAndLog_done : (estimateAndLog env s).done = s.done := rfl
@[simp] theorem estimateAndLog_iter : (estimateAndLog env s).iter = s.iter := rfl
@[simp] theorem estimateAndLog_ref_sln : (estimateAndLog env s).ref_sln = s.ref_sln := rfl
@[simp] theorem estimateAndLog_graph_dof : (estimateAndLog env s).graph_dof =
    s.graph_dof ++ [(env.get_num_dofs s.space, errEstRel env s)] := rfl
@[simp] theorem estimateAndLog_graph_cpu : (estimateAndLog env s).graph_cpu =
    s.graph_cpu ++ [(env.accumulated s.iter, errEstRel env s)] := rfl
@[simp] theorem estimateAndLog_trace : (estimateAndLog env s).trace =
    s.trace ++ [(s.iter, .estimate), (s.iter, .logRow)] := rfl
@[simp] theorem estimateAndLog_liveRefMeshes :
    (estimateAndLog env s).liveRefMeshes = s.liveRefMeshes := rfl
@[simp] theorem estimateAndLog_liveRefSpaces :
    (estimateAndLog env s).liveRefSpaces = s.liveRefSpaces := rfl
@[simp] theorem errEstRel_estimateAndLog :
    errEstRel env (estimateAndLog env s) = errEstRel env s := rfl
@[simp] theorem errEstRel_solveAndProject :
    errEstRel env (solveAndProject d cfg s) = errEstRel env s := rfl
@[simp] theorem errEstRel_beginIteration :
    errEstRel env (beginIteration d s) = env.calc_err_est (s.iter + 1) s.space * Dbl.fin 100 := rfl

@[simp] theorem toleranceOrAdapt_space : (toleranceOrAdapt d cfg env s).space =
    if errEstRel env s < cfg.ERR_STOP then s.space
    else (env.adapt s.iter s.space cfg.THRESHOLD cfg.STRATEGY cfg.MESH_REGULARITY).2 := by
  unfold toleranceOrAdapt; split <;> rfl
@[simp] theorem toleranceOrAdapt_done : (toleranceOrAdapt d cfg env s).done =
    if errEstRel env s < cfg.ERR_STOP then true
    else (env.adapt s.iter s.space cfg.THRESHOLD cfg.STRATEGY cfg.MESH_REGULARITY).1 := by
  unfold toleranceOrAdapt; split <;> rfl
@[simp] theorem toleranceOrAdapt_as : (toleranceOrAdapt d cfg env s).as =
    if errEstRel env s < cfg.ERR_STOP then s.as
    else if d = .adaptQuad2 ∧
      (env.adapt s.iter s.space cfg.THRESHOLD cfg.STRATEGY cfg.MESH_REGULARITY).1 = false
    then s.as + 1 else s.as := by
  unfold toleranceOrAdapt; split <;> rfl
@[simp] theorem toleranceOrAdapt_iter : (toleranceOrAdapt d cfg env s).iter = s.iter := by
  unfold toleranceOrAdapt; split <;> rfl
@[simp] theorem toleranceOrAdapt_ref_sln :
    (toleranceOrAdapt d cfg env s).ref_sln = s.ref_sln := by
  unfold toleranceOrAdapt; split <;> rfl
@[simp] theorem toleranceOrAdapt_graph_dof :
    (toleranceOrAdapt d cfg env s).graph_dof = s.graph_dof := by
  unfold toleranceOrAdapt; split <;> rfl
@[simp] theorem toleranceOrAdapt_graph_cpu :
    (toleranceOrAdapt d cfg env s).graph_cpu = s.graph_cpu := by
  unfold toleranceOrAdapt; split <;> rfl
@[simp] theorem toleranceOrAdapt_trace : (toleranceOrAdapt d cfg env s).trace =
    s.trace ++ (if errEstRel env s < cfg.ERR_STOP then [(s.iter, .toleranceTest true)]
      else [(s.iter, .toleranceTest false), (s.iter, .adapt
        (env.adapt s.iter s.space cfg.THRESHOLD cfg.STRATEGY cfg.MESH_REGULARITY).1)]) := by
  unfold toleranceOrAdapt; split <;> rfl
@[simp] theorem toleranceOrAdapt_liveRefMeshes :
    (toleranceOrAdapt d cfg env s).liveRefMeshes = s.liveRefMeshes := by
  unfold toleranceOrAdapt; split <;> rfl
@[simp] theorem toleranceOrAdapt_liveRefSpaces :
    (toleranceOrAdapt d cfg env s).liveRefSpaces = s.liveRefSpaces := by
  unfold toleranceOrAdapt; split <;> rfl

@[simp] theorem ceilingTest_space : (ceilingTest cfg env s).space = s.space := by
  unfold ceilingTest; split <;> rfl
@[simp] theorem ceilingTest_done : (ceilingTest cfg env s).done =
    if env.get_num_dofs s.space ≥ cfg.NDOF_STOP then true else s.done := by
  unfold ceilingTest; split <;> rfl
@[simp] theorem ceilingTest_as : (ceilingTest cfg env s).as = s.as := by
  unfold ceilingTest; split <;> rfl
@[simp] theorem ceilingTest_iter : (ceilingTest cfg env s).iter = s.iter := by
  unfold ceilingTest; split <;> rfl
@[simp] theorem ceilingTest_ref_sln : (ceilingTest cfg env s).ref_sln = s.ref_sln := by
  unfold ceilingTest; split <;> rfl
@[simp] theorem ceilingTest_graph_dof : (ceilingTest cfg env s).graph_dof = s.graph_dof := by
  unfold ceilingTest; split <;> rfl
@[simp] theorem ceilingTest_graph_cpu : (ceilingTest cfg env s).graph_cpu = s.graph_cpu := by
  unfold ceilingTest; split <;> rfl
@[simp] theorem ceilingTest_trace : (ceilingTest cfg env s).trace =
    s.trace ++ [(s.iter, .ceilingTest (decide (env.get_num_dofs s.space ≥ cfg.NDOF_STOP)))] := by
  unfold ceilingTest; split <;> simp [*]
@[simp] theorem ceilingTest_liveRefMeshes :
    (ceilingTest cfg env s).liveRefMeshes = s.liveRefMeshes := by
  unfold ceilingTest; split <;> rfl
@[simp] theorem ceilingTest_liveRefSpaces :
    (ceilingTest cfg env s).liveRefSpaces = s.liveRefSpaces := by
  unfold ceilingTest; split <;> rfl

@[simp] theorem cleanUp_space : (cleanUp d s).space = s.space := rfl
@[simp] theorem cleanUp_done : (cleanUp d s).done = s.done := rfl
@[simp] theorem cleanUp_as : (cleanUp d s).as = if d = .crack then s.as + 1 else s.as := rfl
@[simp] theorem cleanUp_iter : (cleanUp d s).iter = s.iter := rfl
@[simp] theorem cleanUp_ref_sln : (cleanUp d s).ref_sln = s.ref_sln := rfl
@[simp] theorem cleanUp_graph_dof : (cleanUp d s).graph_dof = s.graph_dof := rfl
@[simp] theorem cleanUp_graph_cpu : (cleanUp d s).graph_cpu = s.graph_cpu := rfl
@[simp] theorem cleanUp_trace : (cleanUp d s).trace = s.trace ++ [(s.iter, .cleanup)] := rfl
@[simp] theorem cleanUp_liveRefMeshes : (cleanUp d s).liveRefMeshes =
    if s.done = false then s.liveRefMeshes.filter (fun o => decide (o.1 ≠ s.iter))
    else s.liveRefMeshes := rfl
@[simp] theorem cleanUp_liveRefSpaces : (cleanUp d s).liveRefSpaces =
    if d = .adaptQuad2 then s.liveRefSpaces.filter (fun o => decide (o.1 ≠ s.iter))
    else s.liveRefSpaces := rfl

end fields

/-! ## The loop body and the loop -/

theorem body_of_solve (d : Driver) (cfg : Config) (env : Env σ) (s : State σ)
    (h : env.solve (s.iter + 1) s.space = true) :
    body d cfg env s = .ok (afterSolve d cfg env (beginIteration d s)) := by
  simp [body, h]

theorem body_of_fail (d : Driver) (cfg : Config) (env : Env σ) (s : State σ)
    (h : env.solve (s.iter + 1) s.space = false) :
    body d cfg env s = .error (solverFailed (beginIteration d s)) := by
  simp [body, h]

theorem body_ok_iff (d : Driver) (cfg : Config) (env : Env σ) (s s' : State σ) :
    body d cfg env s = .ok s' ↔
      env.solve (s.iter + 1) s.space = true ∧ s' = afterSolve d cfg env (beginIteration d s) := by
  cases h : env.solve (s.iter + 1) s.space
  · simp [body_of_fail d cfg env s h]
  · simp [body_of_solve d cfg env s h, eq_comm]

theorem afterSolve_done (d : Driver) (cfg : Config) (env : Env σ) (s : State σ) :
    (afterSolve d cfg env (beginIteration d s)).done = true ↔
      (env.calc_err_est (s.iter + 1) s.space * Dbl.fin 100 < cfg.ERR_STOP ∨
       (env.adapt (s.iter + 1) s.space cfg.THRESHOLD cfg.STRATEGY cfg.MESH_REGULARITY).1 = true ∨
       env.get_num_dofs (afterSolve d cfg env (beginIteration d s)).space ≥ cfg.NDOF_STOP) := by
  simp only [afterSolve]
  simp
  split_ifs <;> simp_all
  tauto

theorem afterSolve_space (d : Driver) (cfg : Config) (env : Env σ) (s : State σ) :
    (afterSolve d cfg env (beginIteration d s)).space =
      if env.calc_err_est (s.iter + 1) s.space * Dbl.fin 100 < cfg.ERR_STOP then s.space
      else (env.adapt (s.iter + 1) s.space cfg.THRESHOLD cfg.STRATEGY cfg.MESH_REGULARITY).2 := by
  simp [afterSolve]

theorem afterSolve_iter (d : Driver) (cfg : Config) (env : Env σ) (s : State σ) :
    (afterSolve d cfg env (beginIteration d s)).iter = s.iter + 1 := by
  simp [afterSolve]

theorem afterSolve_graph_dof (d : Driver) (cfg : Config) (env : Env σ) (s : State σ) :
    (afterSolve d cfg env (beginIteration d s)).graph_dof =
      s.graph_dof ++ [(env.get_num_dofs s.space, env.calc_err_est (s.iter + 1) s.space * Dbl.fin 100)] := by
  simp [afterSolve]

theorem afterSolve_graph_cpu (d : Driver) (cfg : Config) (env : Env σ) (s : State σ) :
    (afterSolve d cfg env (beginIteration d s)).graph_cpu =
      s.graph_cpu ++ [(env.accumulated (s.iter + 1),
        env.calc_err_est (s.iter + 1) s.space * Dbl.fin 100)] := by
  simp [afterSolve]

theorem loop_zero (d : Driver) (cfg : Config) (env : Env σ) (s : State σ) :
    loop d cfg env 0 s = .running s := rfl

theorem loop_succ_fail (d : Driver) (cfg : Config) (env : Env σ) (fuel : Nat) (s : State σ)
    (h : env.solve (s.iter + 1) s.space = false) :
    loop d cfg env (fuel + 1) s = .aborted (solverFailed (beginIteration d s)) := by
  simp [loop, body_of_fail d cfg env s h]

theorem loop_succ_done (d : Driver) (cfg : Config) (env : Env σ) (fuel : Nat) (s : State σ)
    (h : env.solve (s.iter + 1) s.space = true)
    (hd : (afterSolve d cfg env (beginIteration d s)).done = true) :
    loop d cfg env (fuel + 1) s = .finished (afterSolve d cfg env (beginIteration d s)) := by
  simp [loop, body_of_solve d cfg env s h, hd]

theorem loop_succ_continue (d : Driver) (cfg : Config) (env : Env σ) (fuel : Nat)
    (s : State σ) (h : env.solve (s.iter + 1) s.space = true)
    (hd : (afterSolve d cfg env (beginIteration d s)).done = false) :
    loop d cfg env (fuel + 1) s =
      loop d cfg env fuel (afterSolve d cfg env (beginIteration d s)) := by
  simp [loop, body_of_solve d cfg env s h, hd]

/-- Induction along the loop: `P` is kept by every iteration that goes on, and every way of
leaving the loop from a state with `P` gives an outcome with `Q`. -/
theorem loop_induction (d : Driver) (cfg : Config) (env : Env σ)
    (P : State σ → Prop) (Q : Outcome σ → Prop)
    (hrun : ∀ s, P s → Q (.running s))
    (hfail : ∀ s, P s → env.solve (s.iter + 1) s.space = false →
      Q (.aborted (solverFailed (beginIteration d s))))
    (hdone : ∀ s, P s → env.solve (s.iter + 1) s.space = true →
      (afterSolve d cfg env (beginIteration d s)).done = true →
      Q (.finished (afterSolve d cfg env (beginIteration d s))))
    (hcont : ∀ s, P s → env.solve (s.iter + 1) s.space = true →
      (afterSolve d cfg env (beginIteration d s)).done = false →
      P (afterSolve d cfg env (beginIteration d s))) :
    ∀ fuel s, P s → Q (loop d cfg env fuel s) := by
  intro fuel
  induction fuel with
  | zero => intro s hs; exact hrun s hs
  | succ n ih =>
    intro s hs
    cases h : env.solve (s.iter + 1) s.space
    · rw [loop_succ_fail d cfg env n s h]; exact hfail s hs h
    · cases hd : (afterSolve d cfg env (beginIteration d s)).done
      · rw [loop_succ_continue d cfg env n s h hd]; exact ih _ (hcont s hs h hd)
      · rw [loop_succ_done d cfg env n s h hd]; exact hdone s hs h hd

/-- Running `n + m` iterations is running `n` and, if the loop is still going, `m` more. -/
theorem loop_add (d : Driver) (cfg : Config) (env : Env σ) (n m : Nat) (s : State σ) :
    loop d cfg env (n + m) s =
      match loop d cfg env n s with
      | .running s' => loop d cfg env m s'
      | o => o := by
  induction n generalizing s with
  | zero => simp [loop]
  | succ n ih =>
    rw [Nat.add_right_comm]
    cases h : env.solve (s.iter + 1) s.space
    · rw [loop_succ_fail d cfg env _ s h, loop_succ_fail d cfg env _ s h]
    · cases hd : (afterSolve d cfg env (beginIteration d s)).done
      · rw [loop_succ_continue d cfg env _ s h hd, loop_succ_continue d cfg env _ s h hd]
        exact ih _
      · rw [loop_succ_done d cfg env _ s h hd, loop_succ_done d cfg env _ s h hd]

/-! ## C1 -/

/-- C1, as amended: in both drivers, for every iteration whose solve succeeds, the iteration
is the last one (`done = true`, and the loop finishes with the state of that iteration) if and
only if the error estimate in percent is below `ERR_STOP`, or `adapt` was called and reported
`true`, or the working DOF count at the ceiling test is at or above `NDOF_STOP`; in every
other case the loop goes on to a further iteration. -/
theorem C1_done_iff (d : Driver) (cfg : Config) (env : Env σ) (s s' : State σ)
    (h : body d cfg env s = .ok s') :
    (s'.done = true ↔
      (env.calc_err_est (s.iter + 1) s.space * Dbl.fin 100 < cfg.ERR_STOP ∨
       (¬ env.calc_err_est (s.iter + 1) s.space * Dbl.fin 100 < cfg.ERR_STOP ∧
        (env.adapt (s.iter + 1) s.space cfg.THRESHOLD cfg.STRATEGY
          cfg.MESH_REGULARITY).1 = true) ∨
       env.get_num_dofs s'.space ≥ cfg.NDOF_STOP)) ∧
    (s'.done = true → ∀ fuel, loop d cfg env (fuel + 1) s = .finished s') ∧
    (s'.done = false → ∀ fuel, loop d cfg env (fuel + 1) s = loop d cfg env fuel s') := by
  obtain ⟨hs, rfl⟩ := (body_ok_iff d cfg env s s').1 h
  refine ⟨?_, fun hd fuel => loop_succ_done d cfg env fuel s hs hd,
    fun hd fuel => loop_succ_continue d cfg env fuel s hs hd⟩
  rw [afterSolve_done]
  tauto

/-- Witness for C1: the first iteration of adapt-quad-2 on 50 DOFs with estimates
50%, 18%, ... goes on. -/
theorem C1_done_iff_witness :
    ¬ (afterSolve .adaptQuad2 adaptQuad2Config (scriptedEnv [50, 18, 6] 0 false 50)
        (beginIteration .adaptQuad2 (State.init 50))).done = true ∧
    loop .adaptQuad2 adaptQuad2Config (scriptedEnv [50, 18, 6] 0 false 50) 1 (State.init 50) =
      loop .adaptQuad2 adaptQuad2Config (scriptedEnv [50, 18, 6] 0 false 50) 0
        (afterSolve .adaptQuad2 adaptQuad2Config (scriptedEnv [50, 18, 6] 0 false 50)
          (beginIteration .adaptQuad2 (State.init 50))) := by
  have h := C1_done_iff .adaptQuad2 adaptQuad2Config (scriptedEnv [50, 18, 6] 0 false 50)
    (State.init 50) _ (body_of_solve _ _ _ _ (by simp [scriptedEnv]))
  have hd : ¬ (afterSolve .adaptQuad2 adaptQuad2Config (scriptedEnv [50, 18, 6] 0 false 50)
        (beginIteration .adaptQuad2 (State.init 50))).done = true := by
    rw [h.1]
    simp [afterSolve, scriptedEnv, adaptQuad2Config, State.init]
  exact ⟨hd, h.2.2 (by simpa using hd) 0⟩

/-- C1 as stated fails: in adapt-quad-2, with an estimate of 50% on 50 DOFs and an `adapt`
that reports `true` without changing the space, the first iteration ends with `done = true`
although the error is not below `ERR_STOP` and the DOF count is not at `NDOF_STOP`. -/
theorem C1_counterexample :
    ∃ s', body .adaptQuad2 adaptQuad2Config (scriptedEnv [50] 0 true 0) (State.init 50)
        = .ok s' ∧
      s'.done = true ∧
      ¬ ((scriptedEnv [50] 0 true 0).calc_err_est 1 50 * Dbl.fin 100 < adaptQuad2Config.ERR_STOP) ∧
      ¬ ((scriptedEnv [50] 0 true 0).get_num_dofs s'.space ≥ adaptQuad2Config.NDOF_STOP) := by
  refine ⟨_, body_of_solve _ _ _ _ (by simp [scriptedEnv]), ?_, ?_, ?_⟩
  · simp [afterSolve, scriptedEnv, adaptQuad2Config, State.init]
  · norm_num [scriptedEnv, adaptQuad2Config]
  · simp [afterSolve, scriptedEnv, adaptQuad2Config, State.init]

/-! ## Facts about whole runs -/

theorem dofRows_succ (cfg : Config) (env : Env σ) (space : σ) (n : Nat) :
    dofRows cfg env space (n + 1) = dofRows cfg env space n ++
      [(env.get_num_dofs (spaceAt cfg env space n), estimateAt cfg env space n)] := by
  simp [dofRows, List.range_succ]

theorem cpuRows_succ (cfg : Config) (env : Env σ) (space : σ) (n : Nat) :
    cpuRows cfg env space (n + 1) = cpuRows cfg env space n ++
      [(env.accumulated (n + 1), estimateAt cfg env space n)] := by
  simp [cpuRows, List.range_succ]

/-- The number of started iterations: `fuel` more if the loop is still running, at most
`fuel` more otherwise. -/
theorem loop_iter (d : Driver) (cfg : Config) (env : Env σ) :
    ∀ fuel s, (loop d cfg env fuel s).state.iter ≤ s.iter + fuel ∧
      ∀ s', loop d cfg env fuel s = .running s' → s'.iter = s.iter + fuel := by
  intro fuel
  induction fuel with
  | zero => intro s; simp [loop, Outcome.state]
  | succ n ih =>
    intro s
    cases h : env.solve (s.iter + 1) s.space
    · rw [loop_succ_fail d cfg env n s h]
      simp [Outcome.state]
    · cases hd : (afterSolve d cfg env (beginIteration d s)).done
      · rw [loop_succ_continue d cfg env n s h hd]
        have := ih (afterSolve d cfg env (beginIteration d s))
        rw [afterSolve_iter] at this
        refine ⟨by omega, fun s' hs' => ?_⟩
        rw [this.2 s' hs']; omega
      · rw [loop_succ_done d cfg env n s h hd]
        simp [Outcome.state, afterSolve_iter]

/-- The state of the rows and of the working space along a run. -/
theorem loop_rows (d : Driver) (cfg : Config) (env : Env σ) (space : σ) :
    ∀ fuel s,
      (s.space = spaceAt cfg env space s.iter ∧ s.graph_dof = dofRows cfg env space s.iter ∧
        s.graph_cpu = cpuRows cfg env space s.iter) →
      (loop d cfg env fuel s).state.graph_dof =
          dofRows cfg env space (loop d cfg env fuel s).completed ∧
        (loop d cfg env fuel s).state.graph_cpu =
          cpuRows cfg env space (loop d cfg env fuel s).completed ∧
        ((∀ s', loop d cfg env fuel s ≠ .finished s') →
          (loop d cfg env fuel s).state.space =
            spaceAt cfg env space (loop d cfg env fuel s).completed) := by
  refine loop_induction d cfg env
    (fun s => s.space = spaceAt cfg env space s.iter ∧
      s.graph_dof = dofRows cfg env space s.iter ∧ s.graph_cpu = cpuRows cfg env space s.iter)
    (fun o => o.state.graph_dof = dofRows cfg env space o.completed ∧
      o.state.graph_cpu = cpuRows cfg env space o.completed ∧
      ((∀ s', o ≠ .finished s') → o.state.space = spaceAt cfg env space o.completed))
    ?_ ?_ ?_ ?_
  · intro s hs; exact ⟨hs.2.1, hs.2.2, fun _ => hs.1⟩
  · intro s hs _
    simpa [Outcome.state, Outcome.completed] using ⟨hs.2.1, hs.2.2, hs.1⟩
  · intro s hs _ _
    simp only [Outcome.state, Outcome.completed]
    rw [afterSolve_graph_dof, afterSolve_graph_cpu, afterSolve_iter, dofRows_succ, cpuRows_succ,
      hs.2.1, hs.2.2, estimateAt, ← hs.1]
    exact ⟨rfl, rfl, fun h => absurd rfl (h _)⟩
  · intro s hs _ hd
    have hnd : ¬ (afterSolve d cfg env (beginIteration d s)).done = true := by simp [hd]
    rw [afterSolve_done] at hnd
    have hsp := afterSolve_space d cfg env s
    rw [if_neg (fun h => hnd (Or.inl h))] at hsp
    rw [afterSolve_graph_dof, afterSolve_graph_cpu, afterSolve_iter, dofRows_succ, cpuRows_succ,
      hs.2.1, hs.2.2, estimateAt, ← hs.1, hsp]
    exact ⟨by rw [spaceAt, ← hs.1], rfl, rfl⟩

theorem init_rows (cfg : Config) (env : Env σ) (space : σ) :
    (State.init space).space = spaceAt cfg env space (State.init space).iter ∧
      (State.init space).graph_dof = dofRows cfg env space (State.init space).iter ∧
      (State.init space).graph_cpu = cpuRows cfg env space (State.init space).iter := by
  simp [State.init, spaceAt, dofRows, cpuRows]

/-- As long as every solve succeeds, no estimate is below the tolerance, `adapt` never reports
`true` and the refined DOF count is below the ceiling, the loop keeps running on the spaces
`spaceAt`. -/
theorem run_running (d : Driver) (cfg : Config) (env : Env σ) (space : σ) (n : Nat)
    (hsolve : ∀ i, i < n → env.solve (i + 1) (spaceAt cfg env space i) = true)
    (herr : ∀ i, i < n → ¬ estimateAt cfg env space i < cfg.ERR_STOP)
    (hadapt : ∀ i, i < n → adaptDoneAt cfg env space i = false)
    (hdof : ∀ i, i < n → env.get_num_dofs (spaceAt cfg env space (i + 1)) < cfg.NDOF_STOP) :
    ∃ s, run d cfg env space n = .running s ∧ s.iter = n ∧
      s.space = spaceAt cfg env space n := by
  induction n with
  | zero => exact ⟨State.init space, rfl, rfl, rfl⟩
  | succ n ih =>
    obtain ⟨s, hrun, hit, hsp⟩ := ih (fun i hi => hsolve i (by omega))
      (fun i hi => herr i (by omega)) (fun i hi => hadapt i (by omega))
      (fun i hi => hdof i (by omega))
    have hs : env.solve (s.iter + 1) s.space = true := by
      rw [hit, hsp]; exact hsolve n (by omega)
    have he : ¬ env.calc_err_est (s.iter + 1) s.space * Dbl.fin 100 < cfg.ERR_STOP := by
      rw [hit, hsp]; exact herr n (by omega)
    have ha : (env.adapt (s.iter + 1) s.space cfg.THRESHOLD cfg.STRATEGY
        cfg.MESH_REGULARITY).1 = false := by
      rw [hit, hsp]; exact hadapt n (by omega)
    have hspace : (afterSolve d cfg env (beginIteration d s)).space =
        spaceAt cfg env space (n + 1) := by
      rw [afterSolve_space, if_neg he, hit, hsp]; rfl
    have hd : (afterSolve d cfg env (beginIteration d s)).done = false := by
      have : ¬ (afterSolve d cfg env (beginIteration d s)).done = true := by
        rw [afterSolve_done, hspace]
        have := hdof n (by omega)
        simp only [ha, ge_iff_le]
        rintro (h | h | h)
        · exact he h
        · exact absurd h (by simp)
        · omega
      simpa using this
    refine ⟨afterSolve d cfg env (beginIteration d s), ?_, ?_, hspace⟩
    · unfold run at hrun ⊢
      rw [loop_add, hrun]
      simp only
      rw [loop_succ_continue d cfg env 0 s hs hd]; rfl
    · rw [afterSolve_iter, hit]

theorem afterSolve_trace (d : Driver) (cfg : Config) (env : Env σ) (s : State σ) :
    (afterSolve d cfg env (beginIteration d s)).trace =
      s.trace ++ ([(s.iter + 1, .stepMessage s.as), (s.iter + 1, .buildReference),
        (s.iter + 1, .assemble), (s.iter + 1, .solve true), (s.iter + 1, .project)] ++
        (if d = .adaptQuad2 ∧ cfg.VTK_VISUALIZATION = true then [(s.iter + 1, .vtkOutput s.as)]
         else []) ++
        [(s.iter + 1, .estimate), (s.iter + 1, .logRow)] ++
        (if env.calc_err_est (s.iter + 1) s.space * Dbl.fin 100 < cfg.ERR_STOP then
          [(s.iter + 1, .toleranceTest true)]
         else [(s.iter + 1, .toleranceTest false), (s.iter + 1, .adapt
          (env.adapt (s.iter + 1) s.space cfg.THRESHOLD cfg.STRATEGY cfg.MESH_REGULARITY).1)]) ++
        [(s.iter + 1, .ceilingTest (decide (env.get_num_dofs
            (afterSolve d cfg env (beginIteration d s)).space ≥ cfg.NDOF_STOP))),
          (s.iter + 1, .cleanup)]) := by
  simp [afterSolve]

/-- The events an iteration appends all carry the number of that iteration. -/
theorem afterSolve_trace_tags (d : Driver) (cfg : Config) (env : Env σ) (s : State σ) :
    ∃ l, (afterSolve d cfg env (beginIteration d s)).trace = s.trace ++ l ∧
      ∀ e ∈ l, e.1 = s.iter + 1 := by
  refine ⟨_, afterSolve_trace d cfg env s, ?_⟩
  split_ifs <;> simp

/-- Every event in the trace is tagged with an iteration that has been started. -/
theorem loop_trace_tags (d : Driver) (cfg : Config) (env : Env σ) :
    ∀ fuel s, (∀ e ∈ s.trace, e.1 ≤ s.iter) →
      ∀ e ∈ (loop d cfg env fuel s).state.trace, e.1 ≤ (loop d cfg env fuel s).state.iter := by
  have key : ∀ s : State σ, (∀ e ∈ s.trace, e.1 ≤ s.iter) →
      ∀ e ∈ (afterSolve d cfg env (beginIteration d s)).trace,
        e.1 ≤ (afterSolve d cfg env (beginIteration d s)).iter := by
    intro s hs e he
    obtain ⟨l, hl, htag⟩ := afterSolve_trace_tags d cfg env s
    rw [afterSolve_iter]
    rw [hl] at he
    rcases List.mem_append.1 he with he | he
    · exact Nat.le_succ_of_le (hs e he)
    · exact le_of_eq (htag e he)
  refine loop_induction d cfg env (fun s => ∀ e ∈ s.trace, e.1 ≤ s.iter)
    (fun o => ∀ e ∈ o.state.trace, e.1 ≤ o.state.iter) ?_ ?_ ?_ ?_
  · intro s hs; exact hs
  · intro s hs _ e he
    simp only [Outcome.state, solverFailed_trace, solverFailed_iter, beginIteration_trace,
      beginIteration_iter, List.mem_append, List.mem_cons, List.mem_singleton,
      List.not_mem_nil, or_false] at he ⊢
    rcases he with (he | he | he | he) | he | he
    · exact Nat.le_succ_of_le (hs e he)
    all_goals rw [he]
  · intro s hs _ _; exact key s hs
  · intro s hs _ _; exact key s hs

/-! ## C2 -/

/-- C2: in the single-field loop (and likewise in crack), if the solves succeed, `adapt`
never reports done and the working DOF count stays below `NDOF_STOP`, and the estimate of
iteration `j + 1` is the first one strictly below the tolerance, then with enough iterations
allowed the loop performs exactly `j + 1` iterations and ends with `done = true`; the last
row of the log carries that estimate as the final error. -/
theorem C2_first_below_tolerance (d : Driver) (cfg : Config) (env : Env σ) (space : σ)
    (j : Nat)
    (hsolve : ∀ i, i ≤ j → env.solve (i + 1) (spaceAt cfg env space i) = true)
    (hadapt : ∀ i, i < j → adaptDoneAt cfg env space i = false)
    (hdof : ∀ i, i ≤ j → env.get_num_dofs (spaceAt cfg env space i) < cfg.NDOF_STOP)
    (hbefore : ∀ i, i < j → ¬ estimateAt cfg env space i < cfg.ERR_STOP)
    (hfirst : estimateAt cfg env space j < cfg.ERR_STOP) :
    ∀ fuel, j + 1 ≤ fuel →
      ∃ s, run d cfg env space fuel = .finished s ∧ s.iter = j + 1 ∧ s.done = true ∧
        s.graph_dof.length = j + 1 ∧
        s.graph_dof.getLast?.map Prod.snd = some (estimateAt cfg env space j) := by
  intro fuel hfuel
  obtain ⟨s, hrun, hit, hsp⟩ := run_running d cfg env space j
    (fun i hi => hsolve i (by omega)) hbefore hadapt (fun i hi => hdof (i + 1) (by omega))
  have hs : env.solve (s.iter + 1) s.space = true := by
    rw [hit, hsp]; exact hsolve j (le_refl j)
  have hd : (afterSolve d cfg env (beginIteration d s)).done = true := by
    rw [afterSolve_done, hit, hsp]; exact Or.inl hfirst
  have hfin : run d cfg env space fuel =
      .finished (afterSolve d cfg env (beginIteration d s)) := by
    obtain ⟨m, rfl⟩ : ∃ m, fuel = j + (m + 1) := ⟨fuel - j - 1, by omega⟩
    unfold run at hrun ⊢
    rw [loop_add, hrun]
    exact loop_succ_done d cfg env m s hs hd
  have hrows := (loop_rows d cfg env space fuel (State.init space)
    (init_rows cfg env space)).1
  unfold run at hfin
  rw [hfin] at hrows
  simp only [Outcome.state, Outcome.completed, afterSolve_iter, hit] at hrows
  refine ⟨_, hfin, by rw [afterSolve_iter, hit], hd, ?_, ?_⟩
  · rw [hrows]; simp [dofRows]
  · rw [hrows, dofRows_succ]; simp

/-- Witness for C2: the scenario of the spec. adapt-quad-2 (tolerance 1.0, threshold 0.2,
strategy 0) started on 50 DOFs with the estimates 50, 18, 6, 1.8, 0.6 stops in iteration 5
with `done = true` and final error 0.6 < 1.0. -/
theorem C2_first_below_tolerance_witness :
    (∃ s, run .adaptQuad2 adaptQuad2Config (scriptedEnv [50, 18, 6, 9 / 5, 3 / 5] 0 false 50)
        50 5 = .finished s ∧ s.iter = 5 ∧ s.done = true ∧ s.graph_dof.length = 5 ∧
        s.graph_dof.getLast?.map Prod.snd = some (estimateAt adaptQuad2Config
          (scriptedEnv [50, 18, 6, 9 / 5, 3 / 5] 0 false 50) 50 4)) ∧
      estimateAt adaptQuad2Config (scriptedEnv [50, 18, 6, 9 / 5, 3 / 5] 0 false 50) 50 4
        = Dbl.fin (3 / 5) ∧
      adaptQuad2Config.THRESHOLD = Dbl.fin (2 / 10) ∧ adaptQuad2Config.STRATEGY = 0 ∧
      adaptQuad2Config.ERR_STOP = Dbl.fin 1 := by
  refine ⟨C2_first_below_tolerance .adaptQuad2 adaptQuad2Config
    (scriptedEnv [50, 18, 6, 9 / 5, 3 / 5] 0 false 50) 50 4 ?_ ?_ ?_ ?_ ?_ 5 (le_refl 5),
    ?_, rfl, rfl, rfl⟩
  · intro i _; simp [scriptedEnv]
  · intro i _; simp [adaptDoneAt, scriptedEnv]
  · intro i hi
    interval_cases i <;> simp [spaceAt, scriptedEnv, adaptQuad2Config]
  · intro i hi
    interval_cases i <;> norm_num [estimateAt, scriptedEnv, adaptQuad2Config]
  · norm_num [estimateAt, scriptedEnv, adaptQuad2Config]
  · norm_num [estimateAt, scriptedEnv]

/-! ## C3 -/

/-- C3: in both drivers, in every iteration in which the error estimate is at or above the
tolerance and the working DOF count at the ceiling test is at or above `NDOF_STOP`, the loop
terminates in that iteration whatever `adapt` reported: the tolerance test did not stop it,
the ceiling test did, and the row logged for the iteration carries the unmodified estimate,
which is not below the tolerance. -/
theorem C3_ceiling_stop (d : Driver) (cfg : Config) (env : Env σ) (s : State σ)
    (hsolve : env.solve (s.iter + 1) s.space = true)
    (herr : cfg.ERR_STOP ≤ env.calc_err_est (s.iter + 1) s.space * Dbl.fin 100)
    (hdof : cfg.NDOF_STOP ≤ env.get_num_dofs
      (env.adapt (s.iter + 1) s.space cfg.THRESHOLD cfg.STRATEGY cfg.MESH_REGULARITY).2) :
    ∃ s', body d cfg env s = .ok s' ∧ s'.done = true ∧
      (∀ fuel, loop d cfg env (fuel + 1) s = .finished s') ∧
      (s.iter + 1, Event.toleranceTest false) ∈ s'.trace ∧
      (s.iter + 1, Event.ceilingTest true) ∈ s'.trace ∧
      s'.graph_dof = s.graph_dof ++
        [(env.get_num_dofs s.space, env.calc_err_est (s.iter + 1) s.space * Dbl.fin 100)] ∧
      s'.graph_cpu = s.graph_cpu ++
        [(env.accumulated (s.iter + 1), env.calc_err_est (s.iter + 1) s.space * Dbl.fin 100)] ∧
      ¬ env.calc_err_est (s.iter + 1) s.space * Dbl.fin 100 < cfg.ERR_STOP := by
  have hnot : ¬ env.calc_err_est (s.iter + 1) s.space * Dbl.fin 100 < cfg.ERR_STOP :=
    Dbl.not_lt_of_le herr
  have hsp := afterSolve_space d cfg env s
  rw [if_neg hnot] at hsp
  have hd : (afterSolve d cfg env (beginIteration d s)).done = true := by
    rw [afterSolve_done, hsp]; exact Or.inr (Or.inr hdof)
  refine ⟨_, body_of_solve d cfg env s hsolve, hd,
    fun fuel => loop_succ_done d cfg env fuel s hsolve hd, ?_, ?_,
    afterSolve_graph_dof d cfg env s, afterSolve_graph_cpu d cfg env s, hnot⟩
  · rw [afterSolve_trace, if_neg hnot]; simp
  · rw [afterSolve_trace, if_neg hnot, hsp]; simp [hdof]

/-- Witness for C3: the scenario of the spec. With ceiling 1000, tolerance 1 and an estimate
of 5% on a space that `adapt` takes from 900 to 1100 DOFs, the iteration is the last one and
the logged error is 5. -/
theorem C3_ceiling_stop_witness :
    ∃ s', body .adaptQuad2 { adaptQuad2Config with NDOF_STOP := 1000 }
        (scriptedEnv [5] 0 false 200) (State.init 900) = .ok s' ∧ s'.done = true ∧
      (∀ fuel, loop .adaptQuad2 { adaptQuad2Config with NDOF_STOP := 1000 }
        (scriptedEnv [5] 0 false 200) (fuel + 1) (State.init 900) = .finished s') ∧
      (1, Event.toleranceTest false) ∈ s'.trace ∧
      (1, Event.ceilingTest true) ∈ s'.trace ∧
      s'.graph_dof = [(900, Dbl.fin 5)] ∧
      s'.graph_cpu = [(Dbl.fin 1, Dbl.fin 5)] ∧
      ¬ (Dbl.fin 5 < Dbl.fin 1) := by
  have h := C3_ceiling_stop .adaptQuad2 { adaptQuad2Config with NDOF_STOP := 1000 }
    (scriptedEnv [5] 0 false 200) (State.init 900) (by simp [scriptedEnv])
    (by norm_num [scriptedEnv, adaptQuad2Config, State.init])
    (by simp [scriptedEnv, State.init])
  simpa [scriptedEnv, State.init, adaptQuad2Config] using h

/-! ## C4 -/

/-- C4: in both drivers, if the loop is still running after `n` iterations (so the solver
succeeded in iterations 1..n) and the solver reports failure in iteration `n + 1`, then
every run allowed at least `n + 1` iterations aborts there: the working space and both logs
are as iteration `n` left them, each log holds exactly `n` rows, and the events of iteration
`n + 1` are the step message, the reference construction, the assembly, one failed solve
and the fatal error, with no projection, estimate, log row or `adapt` call and no second
solve. -/
theorem C4_solver_failure_aborts (d : Driver) (cfg : Config) (env : Env σ) (space : σ)
    (n : Nat) (s : State σ) (hrun : run d cfg env space n = .running s)
    (hfail : env.solve (n + 1) s.space = false) :
    ∀ fuel, n + 1 ≤ fuel →
      ∃ s', run d cfg env space fuel = .aborted s' ∧
        s'.space = s.space ∧ s'.graph_dof = s.graph_dof ∧ s'.graph_cpu = s.graph_cpu ∧
        s'.graph_dof.length = n ∧ s'.graph_cpu.length = n ∧
        s'.trace.filter (fun e => decide (e.1 = n + 1)) =
          [(n + 1, .stepMessage s.as), (n + 1, .buildReference), (n + 1, .assemble),
            (n + 1, .solve false), (n + 1, .fatal)] := by
  intro fuel hfuel
  have hit : s.iter = n := by
    have := (loop_iter d cfg env n (State.init space)).2 s hrun
    simpa [State.init] using this
  have htags : ∀ e ∈ s.trace, e.1 ≤ s.iter := by
    have := loop_trace_tags d cfg env n (State.init space) (by simp [State.init])
    unfold run at hrun
    rw [hrun] at this
    exact this
  have hrows := loop_rows d cfg env space n (State.init space) (init_rows cfg env space)
  unfold run at hrun
  rw [hrun] at hrows
  simp only [Outcome.state, Outcome.completed, hit] at hrows
  have hf : env.solve (s.iter + 1) s.space = false := by rw [hit]; exact hfail
  obtain ⟨m, rfl⟩ : ∃ m, fuel = n + (m + 1) := ⟨fuel - n - 1, by omega⟩
  refine ⟨solverFailed (beginIteration d s), ?_, rfl, rfl, rfl, ?_, ?_, ?_⟩
  · unfold run
    rw [loop_add, hrun]
    exact loop_succ_fail d cfg env m s hf
  · simp [hrows.1, dofRows]
  · simp [hrows.2.1, cpuRows]
  · have hnone : s.trace.filter (fun e => decide (e.1 = n + 1)) = [] := by
      rw [List.filter_eq_nil_iff]
      intro e he
      have := htags e he
      simp
      omega
    simp [List.filter_append, hnone, hit]

/-- Witness for C4: the scenario of the spec. With the solver failing in iteration 2 the run
aborts with one row in each log and no refinement beyond that of iteration 1. -/
theorem C4_solver_failure_aborts_witness :
    ∃ s', run .adaptQuad2 adaptQuad2Config (scriptedEnv [50, 18, 6] 2 false 50) 50 5
        = .aborted s' ∧
      s'.space = 100 ∧ s'.graph_dof = [(50, Dbl.fin 50)] ∧
      s'.graph_cpu = [(Dbl.fin 1, Dbl.fin 50)] ∧
      s'.graph_dof.length = 1 ∧ s'.graph_cpu.length = 1 ∧
      s'.trace.filter (fun e => decide (e.1 = 1 + 1)) =
        [(1 + 1, .stepMessage 2), (1 + 1, .buildReference), (1 + 1, .assemble),
          (1 + 1, .solve false), (1 + 1, .fatal)] := by
  have hs : (scriptedEnv [50, 18, 6] 2 false 50).solve ((State.init (50 : Int)).iter + 1)
      (State.init (50 : Int)).space = true := by simp [scriptedEnv, State.init]
  have hd : (afterSolve .adaptQuad2 adaptQuad2Config (scriptedEnv [50, 18, 6] 2 false 50)
      (beginIteration .adaptQuad2 (State.init 50))).done = false := by
    simp [afterSolve, scriptedEnv, adaptQuad2Config, State.init]
  have hrun : run .adaptQuad2 adaptQuad2Config (scriptedEnv [50, 18, 6] 2 false 50) 50 1 =
      .running (afterSolve .adaptQuad2 adaptQuad2Config (scriptedEnv [50, 18, 6] 2 false 50)
        (beginIteration .adaptQuad2 (State.init 50))) := by
    unfold run
    rw [loop_succ_continue _ _ _ 0 _ hs hd]; rfl
  have h := C4_solver_failure_aborts .adaptQuad2 adaptQuad2Config
    (scriptedEnv [50, 18, 6] 2 false 50) 50 1 _ hrun (by simp [scriptedEnv]) 5 (by omega)
  obtain ⟨s', h1, h2, h3, h4, h5, h6, h7⟩ := h
  refine ⟨s', h1, ?_, ?_, ?_, h5, h6, ?_⟩
  · rw [h2]; simp [afterSolve, scriptedEnv, adaptQuad2Config, State.init]
  · rw [h3]; simp [afterSolve, scriptedEnv, State.init]
  · rw [h4]; simp [afterSolve, scriptedEnv, State.init]
  · rw [h7]; simp [afterSolve, scriptedEnv, adaptQuad2Config, State.init]

/-! ## C5 -/

/-- C5: in both drivers, after any run, with `n` the number of completed iterations, each of
the two convergence logs holds exactly `n` rows in iteration order; row `i` of the DOF graph
is the working DOF count of iteration `i + 1` with `100` times the value the estimator
returned in that iteration, and row `i` of the CPU graph is the accumulated time with the
same `y` value. -/
theorem C5_log_rows (d : Driver) (cfg : Config) (env : Env σ) (space : σ) (fuel : Nat) :
    (run d cfg env space fuel).state.graph_dof.length = (run d cfg env space fuel).completed ∧
    (run d cfg env space fuel).state.graph_cpu.length = (run d cfg env space fuel).completed ∧
    ∀ i, i < (run d cfg env space fuel).completed →
      (run d cfg env space fuel).state.graph_dof[i]? =
        some (env.get_num_dofs (spaceAt cfg env space i),
          env.calc_err_est (i + 1) (spaceAt cfg env space i) * Dbl.fin 100) ∧
      (run d cfg env space fuel).state.graph_cpu[i]? =
        some (env.accumulated (i + 1),
          env.calc_err_est (i + 1) (spaceAt cfg env space i) * Dbl.fin 100) := by
  have hrows := loop_rows d cfg env space fuel (State.init space) (init_rows cfg env space)
  unfold run
  rw [hrows.1, hrows.2.1]
  refine ⟨by simp [dofRows], by simp [cpuRows], fun i hi => ?_⟩
  simp [dofRows, cpuRows, estimateAt, List.getElem?_map, List.getElem?_range hi]

/-! ## C6 -/

/-- C6: in both drivers, in every iteration whose solve succeeds and in which `adapt` reports
`true` (no element was refined), the iteration ends with `done = true` and the loop is left
normally, as a finished run and not as an abort, whatever the error estimate and the DOF
count are. -/
theorem C6_stalled_refinement_stops (d : Driver) (cfg : Config) (env : Env σ) (s : State σ)
    (hsolve : env.solve (s.iter + 1) s.space = true)
    (hstall : (env.adapt (s.iter + 1) s.space cfg.THRESHOLD cfg.STRATEGY
      cfg.MESH_REGULARITY).1 = true) :
    ∃ s', body d cfg env s = .ok s' ∧ s'.done = true ∧
      ∀ fuel, loop d cfg env (fuel + 1) s = .finished s' := by
  have hd : (afterSolve d cfg env (beginIteration d s)).done = true := by
    rw [afterSolve_done]; exact Or.inr (Or.inl hstall)
  exact ⟨_, body_of_solve d cfg env s hsolve, hd,
    fun fuel => loop_succ_done d cfg env fuel s hsolve hd⟩

/-- Witness for C6: an estimate of 50% on 50 DOFs with an `adapt` that refines nothing. -/
theorem C6_stalled_refinement_stops_witness :
    ∃ s', body .crack crackConfig (scriptedEnv [50] 0 true 0) (State.init 50) = .ok s' ∧
      s'.done = true ∧
      ∀ fuel, loop .crack crackConfig (scriptedEnv [50] 0 true 0) (fuel + 1) (State.init 50)
        = .finished s' :=
  C6_stalled_refinement_stops .crack crackConfig (scriptedEnv [50] 0 true 0) (State.init 50)
    (by simp [scriptedEnv]) (by simp [scriptedEnv])

/-! ## C7 -/

theorem filter_refObjects (d : Driver) (k : Nat) :
    (refObjects d k).filter (fun o => decide (o.1 ≠ k)) = [] := by
  rw [List.filter_eq_nil_iff]
  intro o ho
  simp only [refObjects, List.mem_map] at ho
  obtain ⟨c, _, rfl⟩ := ho
  simp

theorem afterSolve_liveRefMeshes (d : Driver) (cfg : Config) (env : Env σ) (s : State σ) :
    (afterSolve d cfg env (beginIteration d s)).liveRefMeshes =
      if (afterSolve d cfg env (beginIteration d s)).done = false then
        (s.liveRefMeshes ++ refObjects d (s.iter + 1)).filter
          (fun o => decide (o.1 ≠ s.iter + 1))
      else s.liveRefMeshes ++ refObjects d (s.iter + 1) := by
  simp only [afterSolve, cleanUp_liveRefMeshes, cleanUp_done, ceilingTest_liveRefMeshes,
    toleranceOrAdapt_liveRefMeshes, estimateAndLog_liveRefMeshes, solveAndProject_liveRefMeshes,
    beginIteration_liveRefMeshes, ceilingTest_iter, toleranceOrAdapt_iter, estimateAndLog_iter,
    solveAndProject_iter, beginIteration_iter]

theorem afterSolve_liveRefSpaces (d : Driver) (cfg : Config) (env : Env σ) (s : State σ) :
    (afterSolve d cfg env (beginIteration d s)).liveRefSpaces =
      if d = .adaptQuad2 then
        (s.liveRefSpaces ++ refObjects d (s.iter + 1)).filter
          (fun o => decide (o.1 ≠ s.iter + 1))
      else s.liveRefSpaces ++ refObjects d (s.iter + 1) := by
  simp only [afterSolve, cleanUp_liveRefSpaces, ceilingTest_liveRefSpaces,
    toleranceOrAdapt_liveRefSpaces, estimateAndLog_liveRefSpaces, solveAndProject_liveRefSpaces,
    beginIteration_liveRefSpaces, ceilingTest_iter, toleranceOrAdapt_iter, estimateAndLog_iter,
    solveAndProject_iter, beginIteration_iter]

theorem afterSolve_ref_sln (d : Driver) (cfg : Config) (env : Env σ) (s : State σ) :
    (afterSolve d cfg env (beginIteration d s)).ref_sln = some (s.iter + 1) := by
  simp [afterSolve]

/-- C8, as amended: in both drivers, at the end of every iteration that does not terminate
the loop the reference meshes of that iteration are released, and at the end of the
terminating iteration they are retained. Hence while the loop is running no reference mesh
is live, and after a run that finishes in iteration `n` the live reference meshes are exactly
those of iteration `n`, on which the final reference solution is defined. In adapt-quad-2
the reference space object itself is released at the end of every iteration, the
terminating one included. -/
theorem C8_reference_meshes (d : Driver) (cfg : Config) (env : Env σ) (space : σ)
    (fuel : Nat) :
    (∀ s, run d cfg env space fuel = .running s →
      s.liveRefMeshes = [] ∧ (d = .adaptQuad2 → s.liveRefSpaces = [])) ∧
    (∀ s, run d cfg env space fuel = .finished s →
      s.liveRefMeshes = refObjects d s.iter ∧ s.ref_sln = some s.iter ∧
        (d = .adaptQuad2 → s.liveRefSpaces = [])) := by
  have hsp : ∀ s : State σ, (d = .adaptQuad2 → s.liveRefSpaces = []) →
      d = .adaptQuad2 → (afterSolve d cfg env (beginIteration d s)).liveRefSpaces = [] := by
    intro s hs hd
    rw [afterSolve_liveRefSpaces, if_pos hd, hs hd, List.nil_append, filter_refObjects]
  refine loop_induction d cfg env
    (fun s => s.liveRefMeshes = [] ∧ (d = .adaptQuad2 → s.liveRefSpaces = []))
    (fun o => (∀ s, o = .running s →
        s.liveRefMeshes = [] ∧ (d = .adaptQuad2 → s.liveRefSpaces = [])) ∧
      (∀ s, o = .finished s →
        s.liveRefMeshes = refObjects d s.iter ∧ s.ref_sln = some s.iter ∧
          (d = .adaptQuad2 → s.liveRefSpaces = [])))
    ?_ ?_ ?_ ?_ fuel (State.init space) ⟨rfl, fun _ => rfl⟩
  · intro s hs
    refine ⟨fun s' h => ?_, fun s' h => by cases h⟩
    cases h; exact hs
  · intro s _ _
    exact ⟨fun s' h => (by cases h), fun s' h => (by cases h)⟩
  · intro s hs _ hd
    refine ⟨fun s' h => (by cases h), fun s' h => ?_⟩
    cases h
    refine ⟨?_, ?_, hsp s hs.2⟩
    · rw [afterSolve_liveRefMeshes, hd, afterSolve_iter, hs.1]; simp
    · rw [afterSolve_ref_sln, afterSolve_iter]
  · intro s hs _ hd
    refine ⟨?_, hsp s hs.2⟩
    rw [afterSolve_liveRefMeshes, hd, hs.1, List.nil_append, if_pos rfl, filter_refObjects]

/-- Witness for C8: crack with the estimates 50% and 0.05% finishes in iteration 2 holding
the two reference meshes of iteration 2 and none of iteration 1. -/
theorem C8_reference_meshes_witness :
    ∃ s, run .crack crackConfig (scriptedEnv [50, 1 / 20] 0 false 50) 50 2 = .finished s ∧
      s.liveRefMeshes = [(2, 0), (2, 1)] ∧ s.ref_sln = some 2 := by
  have hs : (scriptedEnv [50, 1 / 20] 0 false 50).solve ((State.init (50 : Int)).iter + 1)
      (State.init (50 : Int)).space = true := by simp [scriptedEnv]
  have hd : (afterSolve .crack crackConfig (scriptedEnv [50, 1 / 20] 0 false 50)
      (beginIteration .crack (State.init 50))).done = false := by
    simp [afterSolve, scriptedEnv, crackConfig, State.init]
    norm_num
  have hs2 : (scriptedEnv [50, 1 / 20] 0 false 50).solve
      ((afterSolve .crack crackConfig (scriptedEnv [50, 1 / 20] 0 false 50)
        (beginIteration .crack (State.init 50))).iter + 1)
      (afterSolve .crack crackConfig (scriptedEnv [50, 1 / 20] 0 false 50)
        (beginIteration .crack (State.init 50))).space = true := by simp [scriptedEnv]
  have hd2 : (afterSolve .crack crackConfig (scriptedEnv [50, 1 / 20] 0 false 50)
      (beginIteration .crack (afterSolve .crack crackConfig
        (scriptedEnv [50, 1 / 20] 0 false 50)
        (beginIteration .crack (State.init 50))))).done = true := by
    rw [afterSolve_done, afterSolve_iter]
    left
    norm_num [scriptedEnv, crackConfig, State.init]
  have hrun : run .crack crackConfig (scriptedEnv [50, 1 / 20] 0 false 50) 50 2 =
      .finished (afterSolve .crack crackConfig (scriptedEnv [50, 1 / 20] 0 false 50)
        (beginIteration .crack (afterSolve .crack crackConfig
          (scriptedEnv [50, 1 / 20] 0 false 50)
          (beginIteration .crack (State.init 50))))) := by
    unfold run
    rw [loop_succ_continue _ _ _ 1 _ hs hd, loop_succ_done _ _ _ 0 _ hs2 hd2]
  have h := (C8_reference_meshes .crack crackConfig (scriptedEnv [50, 1 / 20] 0 false 50)
    50 2).2 _ hrun
  refine ⟨_, hrun, ?_, ?_⟩
  · rw [h.1, afterSolve_iter, afterSolve_iter]; rfl
  · rw [h.2.1, afterSolve_iter, afterSolve_iter]; rfl

/-- C8 as stated fails: adapt-quad-2 with an estimate of 0.5% finishes in its first
iteration, and the reference space built in that iteration has been deleted
(`delete ref_space;` is unconditional), while its mesh is still live. -/
theorem C8_counterexample :
    ∃ s, run .adaptQuad2 adaptQuad2Config (scriptedEnv [1 / 2] 0 false 50) 50 1
        = .finished s ∧
      s.iter = 1 ∧ (1, 0) ∉ s.liveRefSpaces ∧ (1, 0) ∈ s.liveRefMeshes := by
  have hs : (scriptedEnv [1 / 2] 0 false 50).solve ((State.init (50 : Int)).iter + 1)
      (State.init (50 : Int)).space = true := by simp [scriptedEnv]
  have hd : (afterSolve .adaptQuad2 adaptQuad2Config (scriptedEnv [1 / 2] 0 false 50)
      (beginIteration .adaptQuad2 (State.init 50))).done = true := by
    rw [afterSolve_done]
    left
    norm_num [scriptedEnv, adaptQuad2Config, State.init]
  refine ⟨_, loop_succ_done _ _ _ 0 _ hs hd, ?_, ?_, ?_⟩
  · rw [afterSolve_iter]; rfl
  · rw [afterSolve_liveRefSpaces, if_pos rfl]
    simp [State.init, filter_refObjects]
  · rw [afterSolve_liveRefMeshes, hd]
    simp [State.init, refObjects, Driver.numFields]

/-! ## C9 -/

/-- C9: in both drivers the working space at the end of an iteration is either the one the
iteration started with or the one `adapt` returned; so, given an `adapt` that never lowers
the DOF count, the DOF values of the successive rows of the DOF log of any run are
non-decreasing. -/
theorem C9_dof_monotone (d : Driver) (cfg : Config) (env : Env σ) (space : σ)
    (hmono : ∀ i s, env.get_num_dofs s ≤ env.get_num_dofs
      (env.adapt i s cfg.THRESHOLD cfg.STRATEGY cfg.MESH_REGULARITY).2) :
    (∀ s s', body d cfg env s = .ok s' → s'.space = s.space ∨
      s'.space = (env.adapt (s.iter + 1) s.space cfg.THRESHOLD cfg.STRATEGY
        cfg.MESH_REGULARITY).2) ∧
    ∀ fuel, ((run d cfg env space fuel).state.graph_dof.map Prod.fst).Pairwise (· ≤ ·) := by
  constructor
  · intro s s' h
    obtain ⟨_, rfl⟩ := (body_ok_iff d cfg env s s').1 h
    rw [afterSolve_space]
    split_ifs
    · exact Or.inl rfl
    · exact Or.inr rfl
  · intro fuel
    have key : ∀ s : State σ,
        ((s.graph_dof.map Prod.fst).Pairwise (· ≤ ·) ∧
          ∀ x ∈ s.graph_dof.map Prod.fst, x ≤ env.get_num_dofs s.space) →
        ((afterSolve d cfg env (beginIteration d s)).graph_dof.map Prod.fst).Pairwise (· ≤ ·) ∧
          ∀ x ∈ (afterSolve d cfg env (beginIteration d s)).graph_dof.map Prod.fst,
            x ≤ env.get_num_dofs (afterSolve d cfg env (beginIteration d s)).space := by
      intro s hs
      have hle : env.get_num_dofs s.space ≤
          env.get_num_dofs (afterSolve d cfg env (beginIteration d s)).space := by
        rw [afterSolve_space]
        split_ifs
        · exact le_refl _
        · exact hmono _ _
      rw [afterSolve_graph_dof, List.map_append]
      refine ⟨?_, ?_⟩
      · rw [List.pairwise_append]
        refine ⟨hs.1, by simp, fun a ha b hb => ?_⟩
        simp only [List.map_cons, List.map_nil, List.mem_singleton] at hb
        rw [hb]; exact hs.2 a ha
      · intro x hx
        rcases List.mem_append.1 hx with hx | hx
        · exact le_trans (hs.2 x hx) hle
        · simp only [List.map_cons, List.map_nil, List.mem_singleton] at hx
          rw [hx]; exact hle
    exact loop_induction d cfg env
      (fun s => (s.graph_dof.map Prod.fst).Pairwise (· ≤ ·) ∧
        ∀ x ∈ s.graph_dof.map Prod.fst, x ≤ env.get_num_dofs s.space)
      (fun o => (o.state.graph_dof.map Prod.fst).Pairwise (· ≤ ·))
      (fun s hs => hs.1) (fun s hs _ => hs.1) (fun s hs _ _ => (key s hs).1)
      (fun s hs _ _ => key s hs) fuel (State.init space) (by simp [State.init])

/-- Witness for C9: three iterations of adapt-quad-2 with an `adapt` that adds 50 DOFs. -/
theorem C9_dof_monotone_witness :
    ((run .adaptQuad2 adaptQuad2Config (scriptedEnv [50, 18, 6] 0 false 50) 50 3).state.graph_dof.map
      Prod.fst).Pairwise (· ≤ ·) :=
  (C9_dof_monotone .adaptQuad2 adaptQuad2Config (scriptedEnv [50, 18, 6] 0 false 50) 50
    (by intro i s; simp [scriptedEnv])).2 3

/-! ## C10 -/

theorem mem_sortDescending (errs : List ℚ) (x : Nat × ℚ) :
    x ∈ sortDescending errs ↔ errs[x.1]? = some x.2 := by
  rw [sortDescending, List.mem_insertionSort, List.mem_enum_iff_getElem?]

theorem sortDescending_sorted (errs : List ℚ) : (sortDescending errs).Pairwise errGe :=
  List.sorted_insertionSort errGe _

/-- In a descending list whose errors are all at most `v`, the elements with error `v` are
all in the leading run of elements with error `v`. -/
theorem mem_takeWhile_tied (v : ℚ) (x : Nat × ℚ) (hx : x.2 = v) :
    ∀ l : List (Nat × ℚ), l.Pairwise errGe → (∀ t ∈ l, t.2 ≤ v) → x ∈ l →
      x ∈ l.takeWhile (fun e => decide (e.2 = v)) := by
  intro l
  induction l with
  | nil => intro _ _ h; cases h
  | cons t l ih =>
    intro hp hle hmem
    rw [List.pairwise_cons] at hp
    by_cases ht : t.2 = v
    · rw [List.takeWhile_cons_of_pos (by simpa using ht)]
      rcases List.mem_cons.1 hmem with h | h
      · rw [h]; exact List.mem_cons_self _ _
      · exact List.mem_cons_of_mem _ (ih hp.2 (fun t' ht' => hle t' (List.mem_cons_of_mem _ ht')) h)
    · exfalso
      rcases List.mem_cons.1 hmem with h | h
      · exact ht (h ▸ hx)
      · have h1 : x.2 ≤ t.2 := hp.1 x h
        have h2 : t.2 ≤ v := hle t (List.mem_cons_self _ _)
        exact ht (le_antisymm h2 (hx ▸ h1))

/-- The squared test of `exceedsFraction` is the comparison with the square root of the
threshold, for non-negative errors. -/
theorem exceedsFraction_iff_sqrt (thr total cum : ℚ) (hthr : 0 ≤ thr) (htotal : 0 ≤ total)
    (hcum : 0 ≤ cum) :
    exceedsFraction thr total cum = true ↔ Real.sqrt (thr : ℝ) * (total : ℝ) < (cum : ℝ) := by
  have h1 : (0 : ℝ) ≤ (thr : ℝ) := by exact_mod_cast hthr
  have h2 : (0 : ℝ) ≤ (total : ℝ) := by exact_mod_cast htotal
  have h3 : (0 : ℝ) ≤ (cum : ℝ) := by exact_mod_cast hcum
  have hs : (0 : ℝ) ≤ Real.sqrt (thr : ℝ) * (total : ℝ) := mul_nonneg (Real.sqrt_nonneg _) h2
  have hsq : (Real.sqrt (thr : ℝ) * (total : ℝ)) ^ 2 = (thr : ℝ) * ((total : ℝ) * (total : ℝ)) := by
    rw [mul_pow, Real.sq_sqrt h1]; ring
  simp only [exceedsFraction, decide_eq_true_eq]
  rw [← pow_lt_pow_iff_left₀ hs h3 (by norm_num : (2 : ℕ) ≠ 0), hsq, pow_two]
  exact_mod_cast Iff.rfl

/-- C10: under marking strategy 0, for every list of element errors and every threshold, if
two elements have identical error contributions and one of them is flagged, the other is
flagged too. -/
theorem C10_ties_flagged_together (thr : ℚ) (errs : List ℚ) (i j : Nat) (e : ℚ)
    (hi : errs[i]? = some e) (hj : errs[j]? = some e)
    (hflag : i ∈ markStrategy0 thr errs) : j ∈ markStrategy0 thr errs := by
  unfold markStrategy0 at hflag ⊢
  simp only at hflag ⊢
  generalize hp : cutLength thr errs.sum 0 (sortDescending errs) = p at hflag ⊢
  have hsorted := sortDescending_sorted errs
  rw [← List.take_append_drop p (sortDescending errs)] at hsorted
  have hjS : (j, e) ∈ sortDescending errs := (mem_sortDescending errs (j, e)).2 hj
  rw [← List.take_append_drop p (sortDescending errs)] at hjS
  cases hlast : ((sortDescending errs).take p).getLast? with
  | none => rw [hlast] at hflag; cases hflag
  | some last =>
    rw [hlast] at hflag
    simp only at hflag ⊢
    obtain ⟨hH, hT, hHT⟩ := List.pairwise_append.1 hsorted
    have hlastmem : last ∈ (sortDescending errs).take p := List.mem_of_getLast?_eq_some hlast
    obtain ⟨ys, hys⟩ := List.getLast?_eq_some_iff.1 hlast
    obtain ⟨x, hx, hxi⟩ := List.mem_map.1 hflag
    -- the flagged element `x` carries the error `e`
    have hxS : x ∈ sortDescending errs := by
      rw [← List.take_append_drop p (sortDescending errs)]
      rcases List.mem_append.1 hx with h | h
      · exact List.mem_append_left _ h
      · exact List.mem_append_right _ ((List.takeWhile_sublist _).subset h)
    have hxe : x.2 = e := by
      have := (mem_sortDescending errs x).1 hxS
      rw [hxi, hi] at this
      exact (Option.some.inj this).symm
    refine List.mem_map.2 ⟨(j, e), ?_, rfl⟩
    rcases List.mem_append.1 hjS with h | h
    · exact List.mem_append_left _ h
    · refine List.mem_append_right _ ?_
      have hle : ∀ t ∈ (sortDescending errs).drop p, t.2 ≤ last.2 :=
        fun t ht => hHT last hlastmem t ht
      have hge : last.2 ≤ e := by
        rcases List.mem_append.1 hx with h' | h'
        · rw [hys] at h' hH
          rcases List.mem_append.1 h' with h'' | h''
          · have := (List.pairwise_append.1 hH).2.2 x h'' last (List.mem_singleton_self _)
            rw [← hxe]; exact this
          · rw [List.mem_singleton.1 h''] at hxe; rw [hxe]
        · have := List.mem_takeWhile_imp h'
          simp only [decide_eq_true_eq] at this
          rw [← hxe, this]
      exact mem_takeWhile_tied last.2 (j, e) (le_antisymm (hle _ h) hge) _ hT hle h

/-- Witness for C10: with errors 5, 3, 3, 1 and threshold 1/4 the elements 1 and 2 are tied;
element 1 is flagged, and so is element 2. -/
theorem C10_ties_flagged_together_witness :
    1 ∈ markStrategy0 (1 / 4) [5, 3, 3, 1] ∧ 2 ∈ markStrategy0 (1 / 4) [5, 3, 3, 1] := by
  have h1 : 1 ∈ markStrategy0 (1 / 4) [5, 3, 3, 1] := by
    simp [markStrategy0, sortDescending, cutLength, exceedsFraction, errGe, List.enum,
      List.enumFrom, List.insertionSort, List.orderedInsert]
    norm_num
  exact ⟨h1, C10_ties_flagged_together (1 / 4) [5, 3, 3, 1] 1 2 3 rfl rfl h1⟩

/-! ## C11 -/

theorem afterSolve_as (d : Driver) (cfg : Config) (env : Env σ) (s : State σ) :
    (afterSolve d cfg env (beginIteration d s)).as =
      if d = .crack then s.as + 1
      else if ¬ env.calc_err_est (s.iter + 1) s.space * Dbl.fin 100 < cfg.ERR_STOP ∧
          (env.adapt (s.iter + 1) s.space cfg.THRESHOLD cfg.STRATEGY
            cfg.MESH_REGULARITY).1 = false then s.as + 1
      else s.as := by
  by_cases h : env.calc_err_est (s.iter + 1) s.space * Dbl.fin 100 < cfg.ERR_STOP <;>
    cases d <;> simp [afterSolve, h]

/-- C11, as amended: in both drivers, in every iteration whose solve succeeds, `adapt` is
invoked if and only if the test `err_est_rel < ERR_STOP` is false, that is if and only if
`100` times the value the estimator returned is not below `ERR_STOP`; when neither value is
NaN this is `ERR_STOP <= err_est_rel`, and a NaN estimate invokes `adapt` as well. The
tolerance test is strict: with an estimate exactly equal to `ERR_STOP` the tolerance test
does not stop the loop and `adapt` is called, so the iteration is the last one only if
`adapt` reports `true` or the ceiling is reached; a DOF count exactly equal to `NDOF_STOP`
does stop the loop. In an iteration that stops on the tolerance the working discretization
is the one the iteration started with. -/
theorem C11_adapt_iff_not_below (d : Driver) (cfg : Config) (env : Env σ) (s : State σ)
    (hsolve : env.solve (s.iter + 1) s.space = true) :
    ∃ s' l, body d cfg env s = .ok s' ∧ s'.trace = s.trace ++ l ∧
      ((∃ e ∈ l, ∃ b, e.2 = Event.adapt b) ↔
        ¬ env.calc_err_est (s.iter + 1) s.space * Dbl.fin 100 < cfg.ERR_STOP) ∧
      (env.calc_err_est (s.iter + 1) s.space * Dbl.fin 100 ≠ Dbl.nan → cfg.ERR_STOP ≠ Dbl.nan →
        ((∃ e ∈ l, ∃ b, e.2 = Event.adapt b) ↔
          cfg.ERR_STOP ≤ env.calc_err_est (s.iter + 1) s.space * Dbl.fin 100)) ∧
      (env.calc_err_est (s.iter + 1) s.space * Dbl.fin 100 = Dbl.nan →
        ∃ e ∈ l, ∃ b, e.2 = Event.adapt b) ∧
      (env.calc_err_est (s.iter + 1) s.space * Dbl.fin 100 = cfg.ERR_STOP →
        (s.iter + 1, Event.toleranceTest false) ∈ l ∧
        (s.iter + 1, Event.adapt (env.adapt (s.iter + 1) s.space cfg.THRESHOLD cfg.STRATEGY
          cfg.MESH_REGULARITY).1) ∈ l ∧
        s'.space = (env.adapt (s.iter + 1) s.space cfg.THRESHOLD cfg.STRATEGY
          cfg.MESH_REGULARITY).2 ∧
        (s'.done = true ↔
          (env.adapt (s.iter + 1) s.space cfg.THRESHOLD cfg.STRATEGY
            cfg.MESH_REGULARITY).1 = true ∨
          env.get_num_dofs s'.space ≥ cfg.NDOF_STOP)) ∧
      (env.get_num_dofs s'.space = cfg.NDOF_STOP → s'.done = true) ∧
      (env.calc_err_est (s.iter + 1) s.space * Dbl.fin 100 < cfg.ERR_STOP →
        s'.done = true ∧ s'.space = s.space) := by
  have hiff : (∃ e ∈ ([(s.iter + 1, Event.stepMessage s.as), (s.iter + 1, .buildReference),
        (s.iter + 1, .assemble), (s.iter + 1, .solve true), (s.iter + 1, .project)] ++
        (if d = .adaptQuad2 ∧ cfg.VTK_VISUALIZATION = true then [(s.iter + 1, .vtkOutput s.as)]
         else []) ++
        [(s.iter + 1, .estimate), (s.iter + 1, .logRow)] ++
        (if env.calc_err_est (s.iter + 1) s.space * Dbl.fin 100 < cfg.ERR_STOP then
          [(s.iter + 1, .toleranceTest true)]
         else [(s.iter + 1, .toleranceTest false), (s.iter + 1, .adapt
          (env.adapt (s.iter + 1) s.space cfg.THRESHOLD cfg.STRATEGY cfg.MESH_REGULARITY).1)]) ++
        [(s.iter + 1, .ceilingTest (decide (env.get_num_dofs
            (afterSolve d cfg env (beginIteration d s)).space ≥ cfg.NDOF_STOP))),
          (s.iter + 1, .cleanup)] : List (Nat × Event)), ∃ b, e.2 = Event.adapt b) ↔
      ¬ env.calc_err_est (s.iter + 1) s.space * Dbl.fin 100 < cfg.ERR_STOP := by
    by_cases h : env.calc_err_est (s.iter + 1) s.space * Dbl.fin 100 < cfg.ERR_STOP
    · rw [if_pos h]
      refine ⟨fun hex => ?_, fun h' => absurd h h'⟩
      exfalso
      revert hex
      split_ifs <;> simp
    · rw [if_neg h]
      exact ⟨fun _ => h, fun _ => ⟨(s.iter + 1, Event.adapt (env.adapt (s.iter + 1)
        s.space cfg.THRESHOLD cfg.STRATEGY cfg.MESH_REGULARITY).1), by simp, _, rfl⟩⟩
  refine ⟨_, _, body_of_solve d cfg env s hsolve, afterSolve_trace d cfg env s, hiff,
    ?_, ?_, ?_, ?_, ?_⟩
  · intro h1 h2
    rw [hiff]
    exact Dbl.not_lt_iff_le h1 h2
  · intro hnan
    rw [hiff, hnan]
    exact Dbl.not_nan_lt _
  · intro heq
    have hnot : ¬ env.calc_err_est (s.iter + 1) s.space * Dbl.fin 100 < cfg.ERR_STOP := by
      rw [heq]; exact Dbl.not_lt_self _
    refine ⟨?_, ?_, ?_, ?_⟩
    · rw [if_neg hnot]; simp
    · rw [if_neg hnot]; simp
    · rw [afterSolve_space, if_neg hnot]
    · rw [afterSolve_done]
      constructor
      · rintro (h | h | h)
        · exact absurd h hnot
        · exact Or.inl h
        · exact Or.inr h
      · rintro (h | h)
        · exact Or.inr (Or.inl h)
        · exact Or.inr (Or.inr h)
  · intro h
    rw [afterSolve_done]
    exact Or.inr (Or.inr (le_of_eq h.symm))
  · intro h
    refine ⟨?_, ?_⟩
    · rw [afterSolve_done]; exact Or.inl h
    · rw [afterSolve_space, if_pos h]

/-- Witness for C11: in adapt-quad-2 an estimate of exactly 1% (`ERR_STOP = 1.0`) on 50 DOFs
does not stop the loop: `adapt` is called, the space goes to 100 DOFs and `done` stays
`false`. -/
theorem C11_adapt_iff_not_below_witness :
    ∃ s' l, body .adaptQuad2 adaptQuad2Config (scriptedEnv [1] 0 false 50) (State.init 50)
        = .ok s' ∧
      s'.trace = (State.init (50 : Int)).trace ++ l ∧
      (1, Event.toleranceTest false) ∈ l ∧ (1, Event.adapt false) ∈ l ∧
      s'.space = 100 ∧ s'.done = false := by
  obtain ⟨s', l, hb, ht, _, _, _, heq, _, _⟩ := C11_adapt_iff_not_below .adaptQuad2
    adaptQuad2Config (scriptedEnv [1] 0 false 50) (State.init 50) (by simp [scriptedEnv])
  obtain ⟨h1, h2, h3, h4⟩ := heq (by norm_num [scriptedEnv, adaptQuad2Config, State.init])
  have hsp : s'.space = 100 := by rw [h3]; simp [scriptedEnv, State.init]
  refine ⟨s', l, hb, ht, by simpa [State.init] using h1,
    by simpa [State.init, scriptedEnv] using h2, hsp, ?_⟩
  have hnd : ¬ s'.done = true := by
    rw [h4, hsp]
    simp [scriptedEnv, adaptQuad2Config]
  simpa using hnd

/-- C11 as stated fails: in adapt-quad-2, when the estimator returns NaN, the test
`err_est_rel < ERR_STOP` is false, so the else branch runs and `adapt` is invoked, although
`err_est_rel >= ERR_STOP` is false as well. -/
theorem C11_counterexample :
    ∃ s', body .adaptQuad2 adaptQuad2Config nanEnv (State.init 50) = .ok s' ∧
      (1, Event.adapt false) ∈ s'.trace ∧
      ¬ (adaptQuad2Config.ERR_STOP ≤ nanEnv.calc_err_est 1 50 * Dbl.fin 100) := by
  refine ⟨_, body_of_solve _ _ _ _ (by simp [nanEnv]), ?_, ?_⟩
  · have hnot : ¬ nanEnv.calc_err_est ((State.init (50 : Int)).iter + 1)
        (State.init (50 : Int)).space * Dbl.fin 100 < adaptQuad2Config.ERR_STOP := by
      simp [nanEnv]
    rw [afterSolve_trace, if_neg hnot]
    simp [nanEnv, State.init]
  · simp [nanEnv]

/-! ## C12 -/

/-- C12: in both drivers, in every run, every row of the DOF convergence log except possibly
the first has a DOF value strictly below `NDOF_STOP`: the row is written at the start of an
iteration, on the space the ceiling test of the previous iteration found below the
ceiling. -/
theorem C12_rows_below_ceiling (d : Driver) (cfg : Config) (env : Env σ) (space : σ)
    (fuel : Nat) :
    ∀ r ∈ (run d cfg env space fuel).state.graph_dof.tail, r.1 < cfg.NDOF_STOP := by
  have key : ∀ s : State σ,
      ((s.graph_dof ≠ [] → env.get_num_dofs s.space < cfg.NDOF_STOP) ∧
        ∀ r ∈ s.graph_dof.tail, r.1 < cfg.NDOF_STOP) →
      ∀ r ∈ (afterSolve d cfg env (beginIteration d s)).graph_dof.tail,
        r.1 < cfg.NDOF_STOP := by
    intro s hs r hr
    rw [afterSolve_graph_dof] at hr
    by_cases hnil : s.graph_dof = []
    · rw [hnil] at hr; simp at hr
    · rw [List.tail_append_of_ne_nil hnil] at hr
      rcases List.mem_append.1 hr with h | h
      · exact hs.2 r h
      · rw [List.mem_singleton.1 h]; exact hs.1 hnil
  refine loop_induction d cfg env
    (fun s => (s.graph_dof ≠ [] → env.get_num_dofs s.space < cfg.NDOF_STOP) ∧
      ∀ r ∈ s.graph_dof.tail, r.1 < cfg.NDOF_STOP)
    (fun o => ∀ r ∈ o.state.graph_dof.tail, r.1 < cfg.NDOF_STOP)
    (fun s hs => hs.2) (fun s hs _ => hs.2) (fun s hs _ _ => key s hs) ?_
    fuel (State.init space) (by simp [State.init])
  intro s hs _ hd
  refine ⟨fun _ => ?_, key s hs⟩
  have hnd : ¬ (afterSolve d cfg env (beginIteration d s)).done = true := by simp [hd]
  rw [afterSolve_done] at hnd
  exact not_le.1 (fun h => hnd (Or.inr (Or.inr h)))

/-- Witness for C12: after two iterations of adapt-quad-2 started on 50 DOFs with an `adapt`
that adds 50, the second row of the DOF log carries 100 DOFs, below the ceiling 60000. -/
theorem C12_rows_below_ceiling_witness :
    ((100 : Int), estimateAt adaptQuad2Config (scriptedEnv [50, 18, 6] 0 false 50) 50 1) ∈
        (run .adaptQuad2 adaptQuad2Config (scriptedEnv [50, 18, 6] 0 false 50) 50
          2).state.graph_dof.tail ∧
      (100 : Int) < adaptQuad2Config.NDOF_STOP := by
  obtain ⟨s, hrun, hit, _⟩ := run_running .adaptQuad2 adaptQuad2Config
    (scriptedEnv [50, 18, 6] 0 false 50) 50 2
    (by intro i _; simp [scriptedEnv])
    (by intro i hi; interval_cases i <;> norm_num [estimateAt, scriptedEnv, adaptQuad2Config])
    (by intro i _; simp [adaptDoneAt, scriptedEnv])
    (by intro i hi; interval_cases i <;> simp [spaceAt, scriptedEnv, adaptQuad2Config])
  have hrows := (loop_rows .adaptQuad2 adaptQuad2Config (scriptedEnv [50, 18, 6] 0 false 50)
    50 2 (State.init 50) (init_rows _ _ _)).1
  have hmem : ((100 : Int), estimateAt adaptQuad2Config (scriptedEnv [50, 18, 6] 0 false 50)
      50 1) ∈ (run .adaptQuad2 adaptQuad2Config (scriptedEnv [50, 18, 6] 0 false 50) 50
        2).state.graph_dof.tail := by
    unfold run at hrun ⊢
    rw [hrows, hrun]
    simp [Outcome.completed, hit, dofRows, List.range_succ, spaceAt, scriptedEnv]
  exact ⟨hmem, C12_rows_below_ceiling .adaptQuad2 adaptQuad2Config
    (scriptedEnv [50, 18, 6] 0 false 50) 50 2 _ hmem⟩

/-! ## C13 -/

theorem stepMessages_afterSolve (d : Driver) (cfg : Config) (env : Env σ) (s : State σ) :
    stepMessages (afterSolve d cfg env (beginIteration d s)).trace =
      stepMessages s.trace ++ [(s.iter + 1, s.as)] := by
  rw [afterSolve_trace]
  unfold stepMessages
  split_ifs <;> simp [List.filterMap_append, List.filterMap_cons]

theorem vtkOutputs_afterSolve (d : Driver) (cfg : Config) (env : Env σ) (s : State σ) :
    vtkOutputs (afterSolve d cfg env (beginIteration d s)).trace =
      vtkOutputs s.trace ++
        (if d = .adaptQuad2 ∧ cfg.VTK_VISUALIZATION = true then [(s.iter + 1, s.as)]
         else []) := by
  rw [afterSolve_trace]
  unfold vtkOutputs
  split_ifs <;> simp [List.filterMap_append, List.filterMap_cons]

theorem stepMessages_solverFailed (d : Driver) (s : State σ) :
    stepMessages (solverFailed (beginIteration d s)).trace =
      stepMessages s.trace ++ [(s.iter + 1, s.as)] := by
  simp [stepMessages, List.filterMap_append, List.filterMap_cons]

theorem vtkOutputs_solverFailed (d : Driver) (s : State σ) :
    vtkOutputs (solverFailed (beginIteration d s)).trace = vtkOutputs s.trace := by
  simp [vtkOutputs, List.filterMap_append, List.filterMap_cons]

/-- C13: in both drivers the counter `as` equals `k` at the start of the `k`-th iteration,
and the step message and the VTK file names of iteration `k` show `k`: in every run the
step messages are numbered 1, 2, 3, ... up to the last iteration started, and the VTK outputs
(adapt-quad-2 with `VTK_VISUALIZATION`) 1, 2, 3, ... up to the last iteration completed,
without gaps or repeats. The drivers increment `as` differently: crack at the end of every
iteration, adapt-quad-2 only when `adapt` was called and returned `false`. -/
theorem C13_step_counter (d : Driver) (cfg : Config) (env : Env σ) (space : σ) (fuel : Nat) :
    (∀ s, run d cfg env space fuel = .running s → s.as = s.iter + 1) ∧
    stepMessages (run d cfg env space fuel).state.trace =
      (List.range (run d cfg env space fuel).state.iter).map (fun i => (i + 1, i + 1)) ∧
    vtkOutputs (run d cfg env space fuel).state.trace =
      (if d = .adaptQuad2 ∧ cfg.VTK_VISUALIZATION = true then
        (List.range (run d cfg env space fuel).completed).map (fun i => (i + 1, i + 1))
       else []) ∧
    (∀ s s', body d cfg env s = .ok s' →
      s'.as = if d = .crack then s.as + 1
        else if ¬ env.calc_err_est (s.iter + 1) s.space * Dbl.fin 100 < cfg.ERR_STOP ∧
            (env.adapt (s.iter + 1) s.space cfg.THRESHOLD cfg.STRATEGY
              cfg.MESH_REGULARITY).1 = false then s.as + 1
        else s.as) := by
  have hbody : ∀ s s', body d cfg env s = .ok s' →
      s'.as = if d = .crack then s.as + 1
        else if ¬ env.calc_err_est (s.iter + 1) s.space * Dbl.fin 100 < cfg.ERR_STOP ∧
            (env.adapt (s.iter + 1) s.space cfg.THRESHOLD cfg.STRATEGY
              cfg.MESH_REGULARITY).1 = false then s.as + 1
        else s.as := by
    intro s s' h
    obtain ⟨_, rfl⟩ := (body_ok_iff d cfg env s s').1 h
    exact afterSolve_as d cfg env s
  have hvtk : ∀ s : State σ, s.as = s.iter + 1 →
      vtkOutputs s.trace =
        (if d = .adaptQuad2 ∧ cfg.VTK_VISUALIZATION = true then
          (List.range s.iter).map (fun i => (i + 1, i + 1)) else []) →
      vtkOutputs (afterSolve d cfg env (beginIteration d s)).trace =
        (if d = .adaptQuad2 ∧ cfg.VTK_VISUALIZATION = true then
          (List.range (s.iter + 1)).map (fun i => (i + 1, i + 1)) else []) := by
    intro s has hv
    rw [vtkOutputs_afterSolve, hv, has]
    split_ifs <;> simp [List.range_succ]
  have hstep : ∀ s : State σ, s.as = s.iter + 1 →
      stepMessages s.trace = (List.range s.iter).map (fun i => (i + 1, i + 1)) →
      stepMessages s.trace ++ [(s.iter + 1, s.as)] =
        (List.range (s.iter + 1)).map (fun i => (i + 1, i + 1)) := by
    intro s has hm
    rw [hm, has]; simp [List.range_succ]
  have main := loop_induction d cfg env
    (fun s => s.as = s.iter + 1 ∧
      stepMessages s.trace = (List.range s.iter).map (fun i => (i + 1, i + 1)) ∧
      vtkOutputs s.trace =
        (if d = .adaptQuad2 ∧ cfg.VTK_VISUALIZATION = true then
          (List.range s.iter).map (fun i => (i + 1, i + 1)) else []))
    (fun o => (∀ s, o = .running s → s.as = s.iter + 1) ∧
      stepMessages o.state.trace = (List.range o.state.iter).map (fun i => (i + 1, i + 1)) ∧
      vtkOutputs o.state.trace =
        (if d = .adaptQuad2 ∧ cfg.VTK_VISUALIZATION = true then
          (List.range o.completed).map (fun i => (i + 1, i + 1)) else []))
    ?_ ?_ ?_ ?_ fuel (State.init space) ?_
  · exact ⟨main.1, main.2.1, main.2.2, hbody⟩
  · intro s hs
    refine ⟨fun s' h => ?_, hs.2.1, hs.2.2⟩
    cases h; exact hs.1
  · intro s hs _
    refine ⟨fun s' h => (by cases h), ?_, ?_⟩
    · simp only [Outcome.state, solverFailed_iter, beginIteration_iter]
      rw [stepMessages_solverFailed]; exact hstep s hs.1 hs.2.1
    · simp only [Outcome.state, Outcome.completed, solverFailed_iter, beginIteration_iter,
        Nat.add_sub_cancel]
      rw [vtkOutputs_solverFailed]; exact hs.2.2
  · intro s hs _ _
    refine ⟨fun s' h => (by cases h), ?_, ?_⟩
    · simp only [Outcome.state, afterSolve_iter]
      rw [stepMessages_afterSolve]; exact hstep s hs.1 hs.2.1
    · simp only [Outcome.state, Outcome.completed, afterSolve_iter]
      exact hvtk s hs.1 hs.2.2
  · intro s hs _ hd
    refine ⟨?_, ?_, ?_⟩
    · have hnd : ¬ (afterSolve d cfg env (beginIteration d s)).done = true := by simp [hd]
      rw [afterSolve_done] at hnd
      rw [afterSolve_as, afterSolve_iter, hs.1]
      have h1 : ¬ env.calc_err_est (s.iter + 1) s.space * Dbl.fin 100 < cfg.ERR_STOP :=
        fun h => hnd (Or.inl h)
      have h2 : (env.adapt (s.iter + 1) s.space cfg.THRESHOLD cfg.STRATEGY
          cfg.MESH_REGULARITY).1 = false := by
        cases h : (env.adapt (s.iter + 1) s.space cfg.THRESHOLD cfg.STRATEGY
          cfg.MESH_REGULARITY).1
        · rfl
        · exact absurd (Or.inr (Or.inl h)) hnd
      split_ifs with hc hc2
      · rfl
      · rfl
      · exact absurd ⟨h1, h2⟩ hc2
    · rw [afterSolve_iter, stepMessages_afterSolve]; exact hstep s hs.1 hs.2.1
    · rw [afterSolve_iter]; exact hvtk s hs.1 hs.2.2
  · simp [State.init, stepMessages, vtkOutputs]

/-- Witness for C13: after two iterations of adapt-quad-2 that go on (estimates 50% and
18%), the counter `as` is 3 at the start of the third. -/
theorem C13_step_counter_witness :
    ∃ s, run .adaptQuad2 adaptQuad2Config (scriptedEnv [50, 18, 6] 0 false 50) 50 2
        = .running s ∧ s.iter = 2 ∧ s.as = 3 := by
  obtain ⟨s, hrun, hit, _⟩ := run_running .adaptQuad2 adaptQuad2Config
    (scriptedEnv [50, 18, 6] 0 false 50) 50 2
    (by intro i _; simp [scriptedEnv])
    (by intro i hi; interval_cases i <;> norm_num [estimateAt, scriptedEnv, adaptQuad2Config])
    (by intro i _; simp [adaptDoneAt, scriptedEnv])
    (by intro i hi; interval_cases i <;> simp [spaceAt, scriptedEnv, adaptQuad2Config])
  have h := (C13_step_counter .adaptQuad2 adaptQuad2Config
    (scriptedEnv [50, 18, 6] 0 false 50) 50 2).1 s hrun
  exact ⟨s, hrun, hit, by rw [h, hit]⟩

end Hermes
